import Mathlib

/-!
# Fantasy Zoo — verification of the tick-driven simulation core

A shallow embedding of the Fantasy Zoo idle game's simulation engine
(`js/systems/*.js`, `js/state.js`, `js/main.js`, plus the earlier single-file
engine in `script.js`), together with theorems settling the specification
claims about it.

Conventions of the embedding:
* JS numbers carrying money, care stats and multipliers are modelled as `ℚ`;
  timestamps and millisecond durations as `ℤ`.
* Animal/egg ids (strings in JS) are modelled as `Nat`; id comparison in the
  source is `String(a.id) === String(id)`, which is plain equality here.
* `Math.random()` draws are passed in explicitly (a draw in `[0,1)`, a chooser
  for `Utils.randomChoice`, a fresh-id seed), so every system is a pure
  function of state, time and the supplied randomness.
* The static configuration tables (`EggData`, `AnimalPools`) are declared by
  the specification to be external configuration, so they enter as parameters;
  `HabitatConfig` lives inside `js/systems/habitat.js` and is embedded
  concretely.
-/

namespace Zoo

/-- `Utils.clamp` from `js/utils.js`: `Math.max(min, Math.min(max, value))`. -/
def clamp (value lo hi : ℚ) : ℚ := max lo (min hi value)

/-- Health status of an animal (`animal.healthStatus`). -/
inductive Health where
  | healthy
  | sick
deriving DecidableEq, Repr

/-- An animal instance as built by `HatchingSystem.createAnimalFromEgg`
(display-only fields `name`/`emoji`/`createdAt` are dropped; `rarity` is kept
because the prestige summary ranks it). -/
structure Animal where
  id : Nat
  rarity : String
  income : ℚ
  hunger : ℚ
  cleanliness : ℚ
  happiness : ℚ
  healthStatus : Health
  neglectTicks : Nat
  habitat : Option String
  habitatBonusMultiplier : ℚ
  happinessIncomeMultiplier : ℚ
  effectiveIncome : ℚ
  fromEggType : String
deriving DecidableEq, Repr

/-- An egg instance as built by `EconomySystem.buyEgg`. -/
structure Egg where
  id : Nat
  type : String
  start : ℤ
  hatchTime : ℤ
deriving DecidableEq, Repr

/-- The `{ id, start, durationMs }` record used for both `GameState.currentBath`
and `GameState.currentPatient`. -/
structure Slot where
  id : Nat
  start : ℤ
  durationMs : ℤ
deriving DecidableEq, Repr

/-- One habitat entry of `GameState.habitats` (`{ key, level, capacity, animalIds }`). -/
structure HabitatState where
  key : String
  level : Nat
  capacity : Nat
  animalIds : List Nat
deriving DecidableEq, Repr

/-- Identifiers of the templates in `EventTemplates` (`js/systems/events.js`). -/
inductive EvId where
  | visitor_donation
  | lost_tickets
  | happy_parade
  | muddy_rain
  | double_tips
deriving DecidableEq, Repr

/-- The event record pushed into `GameState.events.activeEvents` / `history`
(the display fields and the returned payload object are dropped). -/
structure EventRecord where
  tid : EvId
  startedAt : ℤ
  durationMs : ℤ
deriving DecidableEq, Repr

/-- `GameState.events`. -/
structure EventsState where
  activeEvents : List EventRecord
  history : List EventRecord
  lastEventTime : ℤ
deriving DecidableEq, Repr

/-- `GameState.prestige`. -/
structure PrestigeState where
  count : Nat
  totalPrestigePoints : Nat
  lastPrestigeTime : ℤ
deriving DecidableEq, Repr

/-- `GameState.modifiers`. -/
structure Modifiers where
  globalPrestigeMultiplier : ℚ
  incomeBoostMultiplier : ℚ
deriving DecidableEq, Repr

/-- The run summary built by `PrestigeSystem.buildRunSummary`. -/
structure RunSummary where
  coins : ℚ
  maxCoins : ℚ
  petsHatched : Nat
  highestRarity : String
  prestigesBefore : Nat
  prestigesAfter : Nat
  timePlayed : ℤ
deriving DecidableEq, Repr

/-- The global mutable run state (`js/state.js`), with the game-over flags from
`js/systems/lose.js`.

The field `clinicQueueCosts` is *modelled from the spec*: the README documents
`GameState.clinicQueueCosts` mapping queued animal ids to the treatment cost
recorded at enqueue time for refunds, and `js/ui.js` calls the cancel path that
consumes it, but neither appears in the sources under `src/`; it is embedded
here following §3/§4.3 of the specification. -/
structure GState where
  coins : ℚ
  incomePerSecond : ℚ
  animals : List Animal
  eggs : List Egg
  bathQueue : List Nat
  currentBath : Option Slot
  clinicQueue : List Nat
  currentPatient : Option Slot
  clinicQueueCosts : List (Nat × ℚ)
  habitats : List HabitatState
  events : EventsState
  leaderboard : List RunSummary
  prestige : PrestigeState
  modifiers : Modifiers
  isGameOver : Bool
  gameOverReason : Option String
  runStartTime : ℤ
  lastTick : ℤ
deriving DecidableEq, Repr

/-- The initial `window.GameState` literal of `js/state.js`
(`STARTING_COINS = 100`; `runStartTime`/`lastTick` are initialised by
`main.js` with the boot time). -/
def initialGameState (bootTime : ℤ) : GState where
  coins := 100
  incomePerSecond := 0
  animals := []
  eggs := []
  bathQueue := []
  currentBath := none
  clinicQueue := []
  currentPatient := none
  clinicQueueCosts := []
  habitats := []
  events := { activeEvents := [], history := [], lastEventTime := 0 }
  leaderboard := []
  prestige := { count := 0, totalPrestigePoints := 0, lastPrestigeTime := 0 }
  modifiers := { globalPrestigeMultiplier := 1, incomeBoostMultiplier := 1 }
  isGameOver := false
  gameOverReason := none
  runStartTime := bootTime
  lastTick := bootTime

/-- `GS.animals.find(a => String(a.id) === idStr)`. -/
def getAnimalById (animals : List Animal) (id : Nat) : Option Animal :=
  animals.find? (fun a => a.id = id)

/-- The `currentBath && String(currentBath.id) === idStr` test: does the
active slot hold this animal? -/
def slotHolds (slot : Option Slot) (animalId : Nat) : Bool :=
  match slot with
  | some b => b.id = animalId
  | none => false

/-- Mutating the first animal with a given id in place, as the JS
`find`-then-assign idiom does. -/
def updateFirst (id : Nat) (f : Animal → Animal) : List Animal → List Animal
  | [] => []
  | a :: rest => if a.id = id then f a :: rest else a :: updateFirst id f rest

/-! ## Economy system (`js/systems/economy.js`) -/

namespace EconomySystem

/-- `SELL_MULTIPLIER` in `js/systems/economy.js`. -/
def SELL_MULTIPLIER : ℚ := 15

/-- The per-animal earning condition inside `EconomySystem.tick`:
`income > 0 && hunger > 0 && cleanliness > 0 && !isSick`. -/
def canEarn (a : Animal) : Prop :=
  0 < a.income ∧ 0 < a.hunger ∧ 0 < a.cleanliness ∧ a.healthStatus ≠ Health.sick

instance (a : Animal) : Decidable (canEarn a) := by
  unfold canEarn; infer_instance

/-- The `for` loop of `EconomySystem.tick` accumulating
`totalIncomePerSecond`. -/
def totalIncome : List Animal → ℚ
  | [] => 0
  | a :: rest => (if canEarn a then a.income else 0) + totalIncome rest

/-- `EconomySystem.tick`: sum the income of the eligible animals, add it to
`GS.coins`, store it in `GS.incomePerSecond`. -/
def tick (s : GState) : GState :=
  let total := totalIncome s.animals
  { s with coins := s.coins + total, incomePerSecond := total }

/-- An entry of the static `EggData` table (`js/eggs.js`, external
configuration): `hatchTime = none` models a missing or non-numeric
`hatchTime` field, for which `Number(eggDef.hatchTime) || 0` yields `0`.
Likewise `type = none` models a missing `type` field, for which
`eggDef.type || typeKey` falls back to the key. -/
structure EggDef where
  price : ℚ
  hatchTime : Option ℤ
  type : Option String
deriving DecidableEq, Repr

/-- The `EggData` table, an association list keyed by egg type. -/
def EggDataT := List (String × EggDef)

/-- `window.EggData[typeKey]`. -/
def lookupEggDef (eggData : EggDataT) (typeKey : String) : Option EggDef :=
  (eggData.find? (fun e => e.1 = typeKey)).map Prod.snd

/-- `EconomySystem.buyEgg(typeKey)`: validate the type, check the balance,
deduct the price and append a new egg instance (`freshId` stands for the
`Utils.id` draw, `now` for `Utils.now()`).  Returns the new state and the
boolean result. -/
def buyEgg (eggData : EggDataT) (typeKey : String) (freshId : Nat) (now : ℤ)
    (s : GState) : GState × Bool :=
  match lookupEggDef eggData typeKey with
  | none => (s, false)
  | some eggDef =>
    let price := eggDef.price
    if s.coins < price then (s, false)
    else
      let eggInstance : Egg :=
        { id := freshId
          type := eggDef.type.getD typeKey
          start := now
          hatchTime := eggDef.hatchTime.getD 0 }
      ({ s with coins := s.coins - price, eggs := s.eggs ++ [eggInstance] }, true)

/-- `EconomySystem.sellAnimalById(animalId)`: add the sale value, remove the
animal, scrub the bath queue and the active bath slot. -/
def sellAnimalById (s : GState) (animalId : Nat) : GState × Bool :=
  match getAnimalById s.animals animalId with
  | none => (s, false)
  | some animal =>
    let sellValue := animal.income * SELL_MULTIPLIER
    let s := { s with
      coins := s.coins + sellValue
      animals := s.animals.eraseP (fun a => a.id = animalId)
      bathQueue := s.bathQueue.filter (fun id => id ≠ animalId) }
    let s :=
      match s.currentBath with
      | some b => if b.id = animalId then { s with currentBath := none } else s
      | none => s
    (s, true)

end EconomySystem

/-! ## Happiness system (`js/systems/happiness.js`, bundled in
`js/systems/economy.js`) -/

namespace HappinessSystem

def PENALTY_PER_TICK_HUNGRY : ℚ := -(7/10)
def PENALTY_PER_TICK_DIRTY : ℚ := -(7/10)
def PENALTY_PER_TICK_SICK : ℚ := -1
def BONUS_PER_TICK_WELL_CARED : ℚ := 1/2
def NATURAL_DRIFT_PER_TICK : ℚ := -(1/20)
def HUNGER_OK_THRESHOLD : ℚ := 70
def CLEANLINESS_OK_THRESHOLD : ℚ := 70
def HUNGER_DECAY_PER_TICK : ℚ := 1/2

/-- `computeHappinessMultiplier(happiness)`: the step table mapping happiness
to the income multiplier. -/
def computeHappinessMultiplier (happiness : ℚ) : ℚ :=
  if happiness ≥ 90 then 13/10
  else if happiness ≥ 80 then 12/10
  else if happiness ≥ 60 then 11/10
  else if happiness ≥ 40 then 1
  else if happiness ≥ 20 then 3/4
  else 1/2

/-- `updateSingleAnimalHappiness(animal)`: decay hunger (clamped to
`[0,100]`), drift happiness, apply care penalties and the well-cared bonus,
clamp, then store the multiplier and the effective income. -/
def updateSingleAnimalHappiness (a : Animal) : Animal :=
  let hunger := clamp (a.hunger - HUNGER_DECAY_PER_TICK) 0 100
  let h0 := a.happiness + NATURAL_DRIFT_PER_TICK
  let h1 := if hunger < HUNGER_OK_THRESHOLD then h0 + PENALTY_PER_TICK_HUNGRY else h0
  let h2 := if a.cleanliness < CLEANLINESS_OK_THRESHOLD then h1 + PENALTY_PER_TICK_DIRTY else h1
  let h3 := if a.healthStatus = Health.sick then h2 + PENALTY_PER_TICK_SICK else h2
  let wellCared := hunger ≥ HUNGER_OK_THRESHOLD ∧ a.cleanliness ≥ CLEANLINESS_OK_THRESHOLD ∧
    a.healthStatus ≠ Health.sick
  let h4 := if wellCared then h3 + BONUS_PER_TICK_WELL_CARED else h3
  let happiness := clamp h4 0 100
  let multiplier := computeHappinessMultiplier happiness
  { a with
    hunger := hunger
    happiness := happiness
    happinessIncomeMultiplier := multiplier
    effectiveIncome := a.income * multiplier }

/-- `HappinessSystem.tick`: update every animal. -/
def tick (s : GState) : GState :=
  { s with animals := s.animals.map updateSingleAnimalHappiness }

end HappinessSystem

/-! ## Disease system (`js/systems/disease.js`) -/

namespace DiseaseSystem

def NEGLECT_THRESHOLD_HUNGER : ℚ := 30
def NEGLECT_THRESHOLD_CLEANLINESS : ℚ := 30
def NEGLECT_TICKS_BEFORE_SICK : Nat := 20
def CLINIC_COST_MULTIPLIER : ℚ := 25
def CLINIC_DURATION_MS : ℤ := 10000

/-- The loop body of `checkAndUpdateSickness()` for one animal: sick animals
are skipped; otherwise the neglect counter is incremented on a neglected tick
and decremented (towards `0`) otherwise, capped at twice the threshold, and
the animal falls sick — with a clamped `-15` happiness penalty — once the
counter reaches the threshold. -/
def sicknessStep (a : Animal) : Animal :=
  if a.healthStatus = Health.sick then a
  else
    let isNeglected :=
      a.hunger < NEGLECT_THRESHOLD_HUNGER ∧ a.cleanliness < NEGLECT_THRESHOLD_CLEANLINESS
    let n0 := if isNeglected then a.neglectTicks + 1 else a.neglectTicks - 1
    let n1 := min n0 (NEGLECT_TICKS_BEFORE_SICK * 2)
    if n1 ≥ NEGLECT_TICKS_BEFORE_SICK then
      { a with
        neglectTicks := n1
        healthStatus := Health.sick
        happiness := clamp (a.happiness - 15) 0 100 }
    else { a with neglectTicks := n1 }

/-- `checkAndUpdateSickness()`. -/
def checkAndUpdateSickness (s : GState) : GState :=
  { s with animals := s.animals.map sicknessStep }

/-- The completion effect of `processClinic()` on the cured animal. -/
def cureAnimal (a : Animal) : Animal :=
  { a with
    healthStatus := Health.healthy
    neglectTicks := 0
    happiness := clamp (a.happiness + 10) 0 100 }

/-- Step 1 of `processClinic()`: start a treatment if the clinic is free and
there are animals waiting. -/
def promoteClinic (now : ℤ) (s : GState) : GState :=
  match s.currentPatient, s.clinicQueue with
  | none, nextId :: rest =>
    { s with
      clinicQueue := rest
      currentPatient := some { id := nextId, start := now, durationMs := CLINIC_DURATION_MS } }
  | _, _ => s

/-- Step 2 of `processClinic()`: complete the current treatment once its
duration has elapsed (clearing the slot even if the animal no longer
exists). -/
def completeClinic (now : ℤ) (s : GState) : GState :=
  match s.currentPatient with
  | none => s
  | some p =>
    let duration := if 0 < p.durationMs then p.durationMs else CLINIC_DURATION_MS
    if now - p.start ≥ duration then
      { s with
        animals := updateFirst p.id cureAnimal s.animals
        currentPatient := none }
    else s

/-- `processClinic()`: the promotion check followed by the completion
check. -/
def processClinic (now : ℤ) (s : GState) : GState :=
  completeClinic now (promoteClinic now s)

/-- `DiseaseSystem.tick`. -/
def tick (now : ℤ) (s : GState) : GState :=
  processClinic now (checkAndUpdateSickness s)

/-- `DiseaseSystem.sendToClinicById(animalId)`: the animal must exist, be
sick, and appear in neither the queue nor the active slot; the (positive)
cost must be affordable; then the cost is deducted and the id appended to
`clinicQueue`. -/
def sendToClinicById (s : GState) (animalId : Nat) : GState × Bool :=
  match getAnimalById s.animals animalId with
  | none => (s, false)
  | some animal =>
    if animal.healthStatus ≠ Health.sick then (s, false)
    else if s.clinicQueue.any (fun id => id = animalId) then (s, false)
    else if slotHolds s.currentPatient animalId then (s, false)
    else
      let clinicCost := animal.income * CLINIC_COST_MULTIPLIER
      if 0 < clinicCost ∧ s.coins < clinicCost then (s, false)
      else
        let s := if 0 < clinicCost then { s with coins := s.coins - clinicCost } else s
        ({ s with clinicQueue := s.clinicQueue ++ [animalId] }, true)

end DiseaseSystem

/-! ## Cleaning system (bath house, `js/systems/cleaning.js`) -/

namespace CleaningSystem

def CLEAN_COST_MULTIPLIER : ℚ := 6
def BATH_DURATION_MS : ℤ := 7000
def MAX_CLEANLINESS : ℚ := 100

/-- `CleaningSystem.sendToBathById(animalId)`. -/
def sendToBathById (s : GState) (animalId : Nat) : GState × Bool :=
  match getAnimalById s.animals animalId with
  | none => (s, false)
  | some animal =>
    if s.bathQueue.any (fun id => id = animalId) then (s, false)
    else if slotHolds s.currentBath animalId then (s, false)
    else
      let cleanCost := animal.income * CLEAN_COST_MULTIPLIER
      if 0 < cleanCost ∧ s.coins < cleanCost then (s, false)
      else
        let s := if 0 < cleanCost then { s with coins := s.coins - cleanCost } else s
        ({ s with bathQueue := s.bathQueue ++ [animalId] }, true)

/-- The completion effect of `CleaningSystem.tick` on the bathed animal. -/
def finishBath (a : Animal) : Animal :=
  { a with
    cleanliness := clamp MAX_CLEANLINESS 0 MAX_CLEANLINESS
    happiness := clamp (a.happiness + 5) 0 100 }

/-- Step 1 of `CleaningSystem.tick`: if there is no current bath and the
queue is non-empty, shift the head into `currentBath` with `start = now`. -/
def promoteBath (now : ℤ) (s : GState) : GState :=
  match s.currentBath, s.bathQueue with
  | none, nextId :: rest =>
    { s with
      bathQueue := rest
      currentBath := some { id := nextId, start := now, durationMs := BATH_DURATION_MS } }
  | _, _ => s

/-- Step 2 of `CleaningSystem.tick`: complete the current bath once its
duration has elapsed, reporting the cleared occupant. -/
def completeBath (now : ℤ) (s : GState) : GState × Option Nat :=
  match s.currentBath with
  | none => (s, none)
  | some b =>
    let bathDuration := if 0 < b.durationMs then b.durationMs else BATH_DURATION_MS
    if now - b.start ≥ bathDuration then
      ({ s with
          animals := updateFirst b.id finishBath s.animals
          currentBath := none }, some b.id)
    else (s, none)

/-- `CleaningSystem.tick`, instrumented to also report which animal's bath
completed this step (the slot that was cleared), `none` if none did. -/
def tickEv (now : ℤ) (s : GState) : GState × Option Nat :=
  completeBath now (promoteBath now s)

/-- `CleaningSystem.tick` as called from `main.js`. -/
def tick (now : ℤ) (s : GState) : GState := (tickEv now s).1

end CleaningSystem

/-! ## Feeding system (`js/systems/feeding.js`) -/

namespace FeedingSystem

def FEED_COST_MULTIPLIER : ℚ := 5
def MAX_HUNGER : ℚ := 100

/-- `FeedingSystem.feedAnimalById(animalId)`: deduct the (positive) cost,
restore hunger to full, and give a clamped `+5` happiness bonus. -/
def feedAnimalById (s : GState) (animalId : Nat) : GState × Bool :=
  match getAnimalById s.animals animalId with
  | none => (s, false)
  | some animal =>
    let feedCost := animal.income * FEED_COST_MULTIPLIER
    if 0 < feedCost ∧ s.coins < feedCost then (s, false)
    else
      let s := if 0 < feedCost then { s with coins := s.coins - feedCost } else s
      ({ s with
          animals := updateFirst animalId
            (fun a => { a with
              hunger := clamp 100 0 MAX_HUNGER
              happiness := clamp (a.happiness + 5) 0 100 }) s.animals }, true)

end FeedingSystem

/-! ## Hatching system (`js/systems/hatching.js`) -/

namespace HatchingSystem

/-- A template drawn from the static `AnimalPools` table (`js/animals.js`,
external configuration; the `emoji` display field is dropped). -/
structure AnimalTemplate where
  name : String
  rarity : String
  income : ℚ
deriving DecidableEq, Repr

/-- The `AnimalPools` table: egg type key to pool of templates. -/
def AnimalPoolsT := String → List AnimalTemplate

/-- `createAnimalFromEgg(egg)`: `none` when the pool for the egg's type is
empty or the chooser yields nothing (the hatch is skipped), otherwise an
animal instance with the fresh-hatch default fields.  `choose` stands for
`Utils.randomChoice`, `freshId` for the `Utils.id` draw. -/
def createAnimalFromEgg (pools : AnimalPoolsT)
    (choose : List AnimalTemplate → Option AnimalTemplate)
    (freshId : Nat) (egg : Egg) : Option Animal :=
  let pool := pools egg.type
  if pool.isEmpty then none
  else
    match choose pool with
    | none => none
    | some template =>
      some
        { id := freshId
          rarity := template.rarity
          income := template.income
          hunger := 100
          cleanliness := 100
          happiness := 70
          healthStatus := Health.healthy
          neglectTicks := 0
          habitat := none
          habitatBonusMultiplier := 1
          happinessIncomeMultiplier := 1
          effectiveIncome := template.income
          fromEggType := egg.type }

/-- The per-egg readiness test of `HatchingSystem.tick`:
`elapsed >= hatchTime && hatchTime > 0`. -/
def eggDue (now : ℤ) (egg : Egg) : Prop :=
  now - egg.start ≥ egg.hatchTime ∧ 0 < egg.hatchTime

instance (now : ℤ) (egg : Egg) : Decidable (eggDue now egg) := by
  unfold eggDue; infer_instance

/-- The loop of `HatchingSystem.tick`: due eggs are consumed (hatching into at
most one animal each), the rest are kept in order.  Returns the surviving
eggs and the newly hatched animals, in order.  Fresh animal ids are
`freshBase`, `freshBase + 1`, …  -/
def hatchLoop (pools : AnimalPoolsT)
    (choose : List AnimalTemplate → Option AnimalTemplate)
    (now : ℤ) (freshBase : Nat) :
    List Egg → List Egg × List Animal
  | [] => ([], [])
  | egg :: rest =>
    if eggDue now egg then
      let hatched := createAnimalFromEgg pools choose (freshBase + rest.length) egg
      let r := hatchLoop pools choose now freshBase rest
      (r.1, hatched.toList ++ r.2)
    else
      let r := hatchLoop pools choose now freshBase rest
      (egg :: r.1, r.2)

/-- `HatchingSystem.tick`. -/
def tick (pools : AnimalPoolsT)
    (choose : List AnimalTemplate → Option AnimalTemplate)
    (now : ℤ) (freshBase : Nat) (s : GState) : GState :=
  let r := hatchLoop pools choose now freshBase s.eggs
  { s with eggs := r.1, animals := s.animals ++ r.2 }

end HatchingSystem

/-! ## Habitat system (`js/systems/habitat.js`) -/

namespace HabitatSystem

/-- One entry of the `HabitatConfig` table in `js/systems/habitat.js`. -/
structure HabitatCfg where
  key : String
  baseCapacity : Nat
  capacityPerLevel : Nat
  supportedEggTypes : List String
  bonusMultiplier : ℚ
  penaltyMultiplier : ℚ
deriving DecidableEq, Repr

/-- The five configured habitats (display names dropped). -/
def HabitatConfig : List HabitatCfg :=
  [ { key := "forest", baseCapacity := 6, capacityPerLevel := 2,
      supportedEggTypes := ["common", "rare"],
      bonusMultiplier := 12/10, penaltyMultiplier := 9/10 },
    { key := "desert", baseCapacity := 4, capacityPerLevel := 1,
      supportedEggTypes := ["rare"],
      bonusMultiplier := 12/10, penaltyMultiplier := 9/10 },
    { key := "ocean", baseCapacity := 5, capacityPerLevel := 2,
      supportedEggTypes := ["common", "rare"],
      bonusMultiplier := 12/10, penaltyMultiplier := 9/10 },
    { key := "arctic", baseCapacity := 4, capacityPerLevel := 1,
      supportedEggTypes := ["rare"],
      bonusMultiplier := 12/10, penaltyMultiplier := 9/10 },
    { key := "mystic", baseCapacity := 3, capacityPerLevel := 1,
      supportedEggTypes := ["mystic"],
      bonusMultiplier := 13/10, penaltyMultiplier := 85/100 } ]

/-- `getHabitatConfig(key)`. -/
def getHabitatConfig (key : String) : Option HabitatCfg :=
  HabitatConfig.find? (fun cfg => cfg.key = key)

/-- `ensureHabitatState()`: create a missing entry with level 1 and base
capacity, otherwise floor the level at 1, default `animalIds`, and recompute
`capacity` from the level. -/
def ensureHabitatState (habitats : List HabitatState) : List HabitatState :=
  HabitatConfig.map (fun cfg =>
    match habitats.find? (fun h => h.key = cfg.key) with
    | none => { key := cfg.key, level := 1, capacity := cfg.baseCapacity, animalIds := [] }
    | some h =>
      let level := max h.level 1
      { h with
        level := level
        capacity := cfg.baseCapacity + (level - 1) * cfg.capacityPerLevel })

/-- `cleanUpHabitatAssignments()`: drop ids of animals that no longer exist. -/
def cleanUpHabitatAssignments (animals : List Animal) (habitats : List HabitatState) :
    List HabitatState :=
  habitats.map (fun h =>
    { h with animalIds := h.animalIds.filter (fun id => animals.any (fun a => a.id = id)) })

/-- The per-animal body of `applyHabitatEffects()`. -/
def habitatEffect (a : Animal) : Animal :=
  match a.habitat with
  | none =>
    { a with
      habitatBonusMultiplier := 1
      happiness := clamp (a.happiness - 1/2) 0 100 }
  | some key =>
    match getHabitatConfig key with
    | none => { a with habitatBonusMultiplier := 1 }
    | some cfg =>
      if cfg.supportedEggTypes.contains a.fromEggType then
        { a with
          habitatBonusMultiplier := cfg.bonusMultiplier
          happiness := clamp (a.happiness + 1) 0 100 }
      else
        { a with
          habitatBonusMultiplier := cfg.penaltyMultiplier
          happiness := clamp (a.happiness - 1) 0 100 }

/-- `HabitatSystem.tick`. -/
def tick (s : GState) : GState :=
  let habitats := cleanUpHabitatAssignments s.animals (ensureHabitatState s.habitats)
  { s with
    habitats := habitats
    animals := s.animals.map habitatEffect }

/-- `HabitatSystem.assignToHabitat(animalId, habitatKey)`. -/
def assignToHabitat (s : GState) (animalId : Nat) (habitatKey : String) : GState × Bool :=
  let habitats := ensureHabitatState s.habitats
  match getAnimalById s.animals animalId, getHabitatConfig habitatKey,
      habitats.find? (fun h => h.key = habitatKey) with
  | some animal, some cfg, some habitat =>
    let capacity := cfg.baseCapacity + (habitat.level - 1) * cfg.capacityPerLevel
    let existingIds := habitat.animalIds.filter
      (fun id => s.animals.any (fun a => a.id = id))
    if existingIds.length ≥ capacity then
      ({ s with habitats :=
          habitats.map (fun h => if h.key = habitatKey then
            { h with capacity := capacity, animalIds := existingIds } else h) }, false)
    else
      let habitats := habitats.map (fun h =>
        if h.key = habitatKey then
          { h with capacity := capacity, animalIds := existingIds ++ [animal.id] }
        else
          match animal.habitat with
          | some oldKey =>
            if h.key = oldKey then
              { h with animalIds := h.animalIds.filter (fun id => id ≠ animalId) }
            else h
          | none => h)
      ({ s with
          habitats := habitats
          animals := updateFirst animalId
            (fun a => { a with habitat := some habitatKey }) s.animals }, true)
  | _, _, _ => (s, false)

end HabitatSystem

/-! ## Events system (`js/systems/events.js`, bundled in
`js/systems/economy.js`) -/

namespace EventsSystem

def EVENT_CHANCE_PER_TICK : ℚ := 5/100
def MIN_TIME_BETWEEN_EVENTS_MS : ℤ := 15000

/-- `template.type`. -/
inductive EvKind where
  | instant
  | timed
deriving DecidableEq, Repr

/-- The `type` field of each template. -/
def evKind : EvId → EvKind
  | EvId.double_tips => EvKind.timed
  | _ => EvKind.instant

/-- The `durationMs` field of each template (`0` when absent). -/
def evDurationMs : EvId → ℤ
  | EvId.double_tips => 20000
  | _ => 0

/-- Each template's `effect()` applied to the state.  `draw` stands for the
`Math.random()` call inside the effect (a rational in `[0,1)`); the drawn
amounts reproduce the source formulas `20 + floor(draw*30)`,
`10 + floor(draw*20)` and `30 + floor(draw*50)`. -/
def evEffect (draw : ℚ) : EvId → GState → GState
  | EvId.visitor_donation, s =>
    let bonus : ℚ := 20 + ((⌊draw * 30⌋ : ℤ) : ℚ)
    { s with coins := s.coins + bonus }
  | EvId.lost_tickets, s =>
    let loss : ℚ := 10 + ((⌊draw * 20⌋ : ℤ) : ℚ)
    let actualLoss := min s.coins loss
    { s with coins := s.coins - actualLoss }
  | EvId.happy_parade, s =>
    { s with animals := s.animals.map (fun a =>
        { a with happiness := clamp (a.happiness + 10) 0 100 }) }
  | EvId.muddy_rain, s =>
    { s with animals := s.animals.map (fun a =>
        { a with cleanliness := clamp (a.cleanliness - 15) 0 100 }) }
  | EvId.double_tips, s =>
    let bonus : ℚ := 30 + ((⌊draw * 50⌋ : ℤ) : ℚ)
    { s with
      coins := s.coins + bonus
      modifiers := { s.modifiers with
        incomeBoostMultiplier := s.modifiers.incomeBoostMultiplier * 2 } }

/-- Each template's `revert()`; only `double_tips` defines one (halving the
income boost back), the rest have none and revert is a no-op. -/
def evRevert : EvId → GState → GState
  | EvId.double_tips, s =>
    { s with modifiers := { s.modifiers with
        incomeBoostMultiplier := s.modifiers.incomeBoostMultiplier / 2 } }
  | _, s => s

/-- The template list, in source order (used by `randomChoice`). -/
def EventTemplates : List EvId :=
  [EvId.visitor_donation, EvId.lost_tickets, EvId.happy_parade,
   EvId.muddy_rain, EvId.double_tips]

/-- The expiry test inside `processActiveEvents`:
`duration > 0 && elapsed >= duration`. -/
def evExpired (now : ℤ) (ev : EventRecord) : Prop :=
  0 < ev.durationMs ∧ now - ev.startedAt ≥ ev.durationMs

instance (now : ℤ) (ev : EventRecord) : Decidable (evExpired now ev) := by
  unfold evExpired; infer_instance

/-- `processActiveEvents(now)`: expired timed events have their template's
revert applied (in list order) and are removed; the rest stay active. -/
def processActiveEvents (now : ℤ) (s : GState) : GState :=
  let expired := s.events.activeEvents.filter (fun ev => evExpired now ev)
  let stillActive := s.events.activeEvents.filter (fun ev => ¬ evExpired now ev)
  let s := expired.foldl (fun acc ev => evRevert ev.tid acc) s
  { s with events := { s.events with activeEvents := stillActive } }

/-- `triggerRandomEventIfNeeded(now)`: skip below the cooldown or when the
roll exceeds the trigger chance; otherwise pick a template
(`eIdx % 5` models the uniform `randomChoice` over the five templates),
apply its effect, record it into history (and into `activeEvents` when timed
with a positive duration), and stamp `lastEventTime`. -/
def triggerRandomEventIfNeeded (now : ℤ) (roll : ℚ) (eIdx : Nat) (draw : ℚ)
    (s : GState) : GState :=
  if now - s.events.lastEventTime < MIN_TIME_BETWEEN_EVENTS_MS then s
  else if roll > EVENT_CHANCE_PER_TICK then s
  else
    let tid := EventTemplates.getD (eIdx % EventTemplates.length) EvId.visitor_donation
    let s := evEffect draw tid s
    let record : EventRecord :=
      { tid := tid, startedAt := now, durationMs := evDurationMs tid }
    let active :=
      if evKind tid = EvKind.timed ∧ 0 < evDurationMs tid then
        s.events.activeEvents ++ [record]
      else s.events.activeEvents
    { s with events :=
        { activeEvents := active
          history := s.events.history ++ [record]
          lastEventTime := now } }

/-- `EventsSystem.tick`. -/
def tick (now : ℤ) (roll : ℚ) (eIdx : Nat) (draw : ℚ) (s : GState) : GState :=
  triggerRandomEventIfNeeded now roll eIdx draw (processActiveEvents now s)

end EventsSystem

/-! ## Lose system (`js/systems/lose.js`) -/

namespace LoseSystem

/-- `getCheapestEggPrice()`: fold over the `EggData` values, `Infinity` when
the table is empty (modelled as `none`). -/
def getCheapestEggPrice (eggData : EconomySystem.EggDataT) : Option ℚ :=
  eggData.foldl (fun acc e =>
    match acc with
    | none => some e.2.price
    | some m => if e.2.price < m then some e.2.price else some m) none

/-- `GS.coins < cheapestEgg` with `Infinity` semantics for an empty table. -/
def cannotAffordEgg (eggData : EconomySystem.EggDataT) (coins : ℚ) : Prop :=
  match getCheapestEggPrice eggData with
  | none => True
  | some p => coins < p

instance (eggData : EconomySystem.EggDataT) (coins : ℚ) :
    Decidable (cannotAffordEgg eggData coins) := by
  unfold cannotAffordEgg
  rcases getCheapestEggPrice eggData with _ | p <;> simp <;> infer_instance

/-- `LoseSystem.tick`: short-circuit when already terminal, then check
bankrupt, no-animals-or-eggs, all-unhappy in priority order. -/
def tick (eggData : EconomySystem.EggDataT) (s : GState) : GState :=
  if s.isGameOver then s
  else if s.coins < 0 then
    { s with isGameOver := true, gameOverReason := some "bankrupt" }
  else if s.animals.isEmpty ∧ s.eggs.isEmpty ∧ cannotAffordEgg eggData s.coins then
    { s with isGameOver := true, gameOverReason := some "no_animals" }
  else if ¬ s.animals.isEmpty ∧ ∀ a ∈ s.animals, a.happiness ≤ 0 then
    { s with isGameOver := true, gameOverReason := some "all_unhappy" }
  else s

/-- `LoseSystem.restartGame()`. -/
def restartGame (now : ℤ) (s : GState) : GState :=
  { s with
    coins := 100
    incomePerSecond := 0
    animals := []
    eggs := []
    bathQueue := []
    currentBath := none
    clinicQueue := []
    currentPatient := none
    habitats := s.habitats.map (fun h => { h with animalIds := [] })
    events := { activeEvents := [], history := [], lastEventTime := 0 }
    modifiers := { s.modifiers with incomeBoostMultiplier := 1 }
    isGameOver := false
    gameOverReason := none
    lastTick := now
    runStartTime := now }

end LoseSystem

/-! ## Prestige system (`js/systems/prestige.js`) -/

namespace PrestigeSystem

def STARTING_COINS_AFTER_PRESTIGE : ℚ := 100
def MIN_COINS_FOR_PRESTIGE : ℚ := 200
def MIN_ANIMALS_FOR_PRESTIGE : Nat := 3
def PRESTIGE_REWARD_INCOME_BOOST_PER_PRESTIGE : ℚ := 1/10

/-- `PrestigeSystem.canPrestige()`. -/
def canPrestige (s : GState) : Prop :=
  MIN_COINS_FOR_PRESTIGE ≤ s.coins ∧ MIN_ANIMALS_FOR_PRESTIGE ≤ s.animals.length

instance (s : GState) : Decidable (canPrestige s) := by
  unfold canPrestige; infer_instance

/-- `rarityRank(r)` (the source lowercases the string first; rarity strings
produced by the pools are compared case-insensitively, embedded via the five
recognised spellings). -/
def rarityRank (r : String) : Nat :=
  if r = "Common" ∨ r = "common" then 1
  else if r = "Uncommon" ∨ r = "uncommon" then 2
  else if r = "Rare" ∨ r = "rare" then 3
  else if r = "Epic" ∨ r = "epic" then 4
  else if r = "Legendary" ∨ r = "legendary" then 5
  else 0

/-- The fold in `buildRunSummary` computing the highest rarity present. -/
def highestRarity (animals : List Animal) : String :=
  (animals.foldl (fun acc a =>
    if rarityRank a.rarity > acc.1 then (rarityRank a.rarity, a.rarity) else acc)
    (0, "Unknown")).2

/-- `buildRunSummary()` (with `maxCoins` approximated by the current coins, as
in the source). -/
def buildRunSummary (now : ℤ) (s : GState) : RunSummary :=
  { coins := s.coins
    maxCoins := s.coins
    petsHatched := s.animals.length
    highestRarity := highestRarity s.animals
    prestigesBefore := s.prestige.count
    prestigesAfter := s.prestige.count + 1
    timePlayed := max 0 (now - s.runStartTime) }

/-- `applyPrestigeRewards()`: bump the counters and add the fixed increment to
the permanent global multiplier. -/
def applyPrestigeRewards (now : ℤ) (s : GState) : GState :=
  { s with
    prestige :=
      { count := s.prestige.count + 1
        totalPrestigePoints := s.prestige.totalPrestigePoints + 1
        lastPrestigeTime := now }
    modifiers := { s.modifiers with
      globalPrestigeMultiplier :=
        s.modifiers.globalPrestigeMultiplier + PRESTIGE_REWARD_INCOME_BOOST_PER_PRESTIGE } }

/-- `resetZooForNewRun()`: wipe the transient collections and restore the
starting coins, preserving leaderboard, prestige counters and the permanent
multiplier. -/
def resetZooForNewRun (now : ℤ) (s : GState) : GState :=
  { s with
    coins := STARTING_COINS_AFTER_PRESTIGE
    incomePerSecond := 0
    animals := []
    eggs := []
    bathQueue := []
    currentBath := none
    clinicQueue := []
    currentPatient := none
    habitats := s.habitats.map (fun h => { h with animalIds := [] })
    events := { activeEvents := [], history := [], lastEventTime := 0 }
    lastTick := now
    runStartTime := now }

/-- `PrestigeSystem.doPrestige()`: fail (without mutating) when
`canPrestige()` is false; otherwise build the summary, apply the rewards,
push the summary onto the leaderboard and reset the zoo. -/
def doPrestige (now : ℤ) (s : GState) : GState × Bool :=
  if canPrestige s then
    let summary := buildRunSummary now s
    let s := applyPrestigeRewards now s
    let summary := { summary with prestigesAfter := s.prestige.count }
    let s := { s with leaderboard := s.leaderboard ++ [summary] }
    (resetZooForNewRun now s, true)
  else (s, false)

end PrestigeSystem

/-! ## The per-second pipeline (`gameTick` in `js/main.js`) -/

/-- The randomness consumed by one `gameTick`: the `Utils.randomChoice` draw
for hatching, the fresh-id seed, and the events system's trigger roll,
template choice and in-effect draw. -/
structure TickRand where
  choose : List HatchingSystem.AnimalTemplate → Option HatchingSystem.AnimalTemplate
  freshBase : Nat
  roll : ℚ
  eIdx : Nat
  draw : ℚ

/-- `gameTick()` from `js/main.js`: hatching, cleaning, disease, habitat,
happiness, events, economy — in that order — then stamp `lastTick`.
(The pipeline never calls `LoseSystem.tick` and performs no game-over
check.) -/
def gameTick (pools : HatchingSystem.AnimalPoolsT) (r : TickRand) (now : ℤ)
    (s : GState) : GState :=
  let s := HatchingSystem.tick pools r.choose now r.freshBase s
  let s := CleaningSystem.tick now s
  let s := DiseaseSystem.tick now s
  let s := HabitatSystem.tick s
  let s := HappinessSystem.tick s
  let s := EventsSystem.tick now r.roll r.eIdx r.draw s
  let s := EconomySystem.tick s
  { s with lastTick := now }

/-! ## Clinic cancellation (modelled from the spec)

`js/ui.js` (`handleCancelClinic`) calls `DiseaseSystem.cancelClinicById`, and
the README documents per-queue-entry cost tracking (`clinicQueueCosts`) with
refund-on-cancel, but neither the cancel operation nor the cost record is
implemented anywhere under `src/`.  Both are therefore modelled from the
specification (§4.3): enqueue records the paid cost against the animal's id;
cancel refunds the recorded cost for a waiting entry, forfeits an active
treatment without refund, and fails as a no-op otherwise. -/

namespace DiseaseSystem

/-- The recorded cost for an id (`0` when nothing is recorded). -/
def recordedCost (costs : List (Nat × ℚ)) (id : Nat) : ℚ :=
  match costs.find? (fun e => e.1 = id) with
  | some e => e.2
  | none => 0

/-- Modelled from the spec: `sendToClinicById` followed by recording the paid
cost against the animal's id (§4.3 "deducts cost immediately, records the
paid cost against this animal's id for later refund"); the recording step is
absent from `src/`. -/
def clinicEnqueueRecorded (s : GState) (animalId : Nat) : GState × Bool :=
  let r := sendToClinicById s animalId
  if r.2 then
    let cost :=
      match getAnimalById s.animals animalId with
      | some a => a.income * CLINIC_COST_MULTIPLIER
      | none => 0
    let paid := if 0 < cost then cost else 0
    ({ r.1 with clinicQueueCosts := r.1.clinicQueueCosts ++ [(animalId, paid)] }, true)
  else (r.1, false)

/-- Modelled from the spec: `DiseaseSystem.cancelClinicById` is called by
`js/ui.js` but not implemented under `src/`; per §4.3, "if animal is in the
waiting queue, remove it and refund its recorded paid cost; if it is the
active occupant, clear the slot with no refund (treatment is forfeited) and,
for clinic, the animal remains sick"; otherwise it fails without effect. -/
def cancelClinicById (s : GState) (animalId : Nat) : GState × Bool :=
  if s.clinicQueue.any (fun id => id = animalId) then
    ({ s with
        coins := s.coins + recordedCost s.clinicQueueCosts animalId
        clinicQueue := s.clinicQueue.filter (fun id => id ≠ animalId)
        clinicQueueCosts := s.clinicQueueCosts.filter (fun e => e.1 ≠ animalId) }, true)
  else if slotHolds s.currentPatient animalId then
    ({ s with currentPatient := none }, true)
  else (s, false)

end DiseaseSystem

/-! ## The legacy single-file engine (`script.js`, first iteration)

The repository also contains the original single-file iteration of the game, whose
`tick()` performs hatching, bath processing, and a combined
decay-and-income pass with different constants (`HUNGER_DECAY_PER_TICK = 1`,
`CLEAN_DECAY_PER_TICK = 0.7`, `BATH_DURATION_MS = 5000`) and an explicit
bath exemption. -/

namespace Legacy

/-- An animal of the legacy engine (display fields dropped). -/
structure LAnimal where
  id : Nat
  rarity : String
  income : ℚ
  hunger : ℚ
  cleanliness : ℚ
deriving DecidableEq, Repr

/-- A legacy egg (`{ id, typeKey, startTime, hatchTime }`). -/
structure LEgg where
  id : Nat
  typeKey : String
  startTime : ℤ
  hatchTime : ℤ
deriving DecidableEq, Repr

/-- The legacy `currentBath` record (`{ animalId, startTime, durationMs }`). -/
structure LBath where
  animalId : Nat
  startTime : ℤ
  durationMs : ℤ
deriving DecidableEq, Repr

/-- The closure state of the legacy engine. -/
structure LState where
  coins : ℚ
  eggs : List LEgg
  zooAnimals : List LAnimal
  bathQueue : List Nat
  currentBath : Option LBath
deriving DecidableEq, Repr

def HUNGER_DECAY_PER_TICK : ℚ := 1
def CLEAN_DECAY_PER_TICK : ℚ := 7/10
def MAX_HUNGER : ℚ := 100
def MAX_CLEAN : ℚ := 100
def BATH_DURATION_MS : ℤ := 5000

/-- A legacy egg-type entry (`eggTypes[typeKey]`), income pool abstracted to
the template incomes/rarities. -/
structure LEggType where
  price : ℚ
  hatchTime : ℤ
  animals : List HatchingSystem.AnimalTemplate
deriving Repr

/-- The legacy `eggTypes` table as a lookup. -/
def LEggTypesT := String → Option LEggType

/-- The `isInBath` test of the legacy decay loop:
`currentBath && currentBath.animalId === animal.id`. -/
def isInBath (currentBath : Option LBath) (a : LAnimal) : Prop :=
  match currentBath with
  | some b => b.animalId = a.id
  | none => False

instance (currentBath : Option LBath) (a : LAnimal) :
    Decidable (isInBath currentBath a) := by
  unfold isInBath
  rcases currentBath with _ | b <;> simp <;> infer_instance

/-- The body of the legacy decay-and-income loop for one animal: pets in the
bath neither decay nor earn; the rest decay (floored at `0`) and earn when
their post-decay hunger and cleanliness are positive. -/
def decayOne (currentBath : Option LBath) (a : LAnimal) : LAnimal :=
  if isInBath currentBath a then a
  else
    { a with
      hunger := max 0 (a.hunger - HUNGER_DECAY_PER_TICK)
      cleanliness := max 0 (a.cleanliness - CLEAN_DECAY_PER_TICK) }

/-- The legacy decay-and-income pass (`script.js` lines 193–217): walk the
animals, decaying each non-bathing one in place, and accumulate
`incomePerSecond` from the animals whose (post-decay) hunger and cleanliness
are positive and that are not in the bath. -/
def decayAndIncome (currentBath : Option LBath) :
    List LAnimal → List LAnimal × ℚ
  | [] => ([], 0)
  | a :: rest =>
    let a' := decayOne currentBath a
    let earns := 0 < a'.hunger ∧ 0 < a'.cleanliness ∧ ¬ isInBath currentBath a
    let r := decayAndIncome currentBath rest
    (a' :: r.1, (if earns then a'.income else 0) + r.2)

/-- The legacy `processBath(now)`: promote the queue head when the bath is
free, then finish the current bath once its duration has elapsed (restoring
cleanliness to `MAX_CLEAN`). -/
def processBath (now : ℤ) (s : LState) : LState :=
  let s :=
    match s.currentBath, s.bathQueue with
    | none, nextId :: rest =>
      { s with
        bathQueue := rest
        currentBath := some { animalId := nextId, startTime := now, durationMs := BATH_DURATION_MS } }
    | _, _ => s
  match s.currentBath with
  | none => s
  | some b =>
    if now - b.startTime ≥ b.durationMs then
      { s with
        zooAnimals := s.zooAnimals.map (fun a =>
          if a.id = b.animalId then { a with cleanliness := MAX_CLEAN } else a)
        currentBath := none }
    else s

/-- The legacy `hatchEgg` + egg filtering of `tick()`: eggs whose time has
passed are replaced by one animal drawn from the type's pool (unknown types
hatch nothing but are still filtered out). -/
def hatchPhase (eggTypes : LEggTypesT)
    (choose : List HatchingSystem.AnimalTemplate → Option HatchingSystem.AnimalTemplate)
    (now : ℤ) (freshBase : Nat) (s : LState) : LState :=
  let due := s.eggs.filter (fun egg => decide (now - egg.startTime ≥ egg.hatchTime))
  let hatched := (due.enum.filterMap (fun p =>
    match eggTypes p.2.typeKey with
    | none => none
    | some et =>
      match choose et.animals with
      | none => none
      | some t =>
        some { id := freshBase + p.1, rarity := t.rarity, income := t.income,
               hunger := MAX_HUNGER, cleanliness := MAX_CLEAN : LAnimal }))
  { s with
    eggs := s.eggs.filter (fun egg => decide (now - egg.startTime < egg.hatchTime))
    zooAnimals := s.zooAnimals ++ hatched }

/-- The legacy `tick()` (`script.js` lines 174–229): hatch due eggs, process
the bath, then decay stats and collect income, adding it to the coins when
positive. -/
def tick (eggTypes : LEggTypesT)
    (choose : List HatchingSystem.AnimalTemplate → Option HatchingSystem.AnimalTemplate)
    (now : ℤ) (freshBase : Nat) (s : LState) : LState :=
  let s := hatchPhase eggTypes choose now freshBase s
  let s := processBath now s
  let r := decayAndIncome s.currentBath s.zooAnimals
  { s with
    zooAnimals := r.1
    coins := if 0 < r.2 then s.coins + r.2 else s.coins }

end Legacy

/-! ## Claim-side definitions

Definitions written from the specification's words (clearly marked), run
helpers, and the concrete states used by counterexamples and witnesses. -/

namespace Claims

/-- Written from the spec (C1): the contribution the specification claims an
animal makes to the step's income total — the base income times the
happiness, habitat, global prestige and global event multipliers when the
animal is healthy, not occupying the bath's active slot, and has positive
hunger and cleanliness; `0` otherwise. -/
def specContributionC1 (s : GState) (a : Animal) : ℚ :=
  if a.healthStatus = Health.healthy ∧ slotHolds s.currentBath a.id = false ∧
      0 < a.hunger ∧ 0 < a.cleanliness then
    a.income * a.happinessIncomeMultiplier * a.habitatBonusMultiplier *
      s.modifiers.globalPrestigeMultiplier * s.modifiers.incomeBoostMultiplier
  else 0

/-- Written from the spec (C1): the income total the specification claims the
Economy step adds to the balance. -/
def specIncomeTotalC1 (s : GState) : ℚ :=
  (s.animals.map (specContributionC1 s)).sum

end Claims

/-- Iterating `CleaningSystem.tickEv` over a schedule of tick times,
collecting the bath-completion events in order. -/
def bathRun (times : List ℤ) (s : GState) : GState × List Nat :=
  match times with
  | [] => (s, [])
  | t :: ts =>
    let r := CleaningSystem.tickEv t s
    let rest := bathRun ts r.1
    (rest.1, r.2.toList ++ rest.2)

/-- Iterating `HatchingSystem.tick` over a schedule of (time, fresh-id seed)
pairs. -/
def hatchRun (pools : HatchingSystem.AnimalPoolsT)
    (choose : List HatchingSystem.AnimalTemplate → Option HatchingSystem.AnimalTemplate)
    (ticks : List (ℤ × Nat)) (s : GState) : GState :=
  ticks.foldl (fun acc t => HatchingSystem.tick pools choose t.1 t.2 acc) s

/-- The shapes the bath house passes through after `A`, `B`, `C` are enqueued
into an empty bath house, paired with the completion lists seen so far: the
completions are always the matching prefix of `[A, B, C]`. -/
def bathInv (A B C : Nat) (s : GState) (done : List Nat) : Prop :=
  (done = [] ∧ s.currentBath = none ∧ s.bathQueue = [A, B, C]) ∨
  (done = [] ∧
    (∃ st, s.currentBath = some { id := A, start := st, durationMs := CleaningSystem.BATH_DURATION_MS }) ∧
    s.bathQueue = [B, C]) ∨
  (done = [A] ∧ s.currentBath = none ∧ s.bathQueue = [B, C]) ∨
  (done = [A] ∧
    (∃ st, s.currentBath = some { id := B, start := st, durationMs := CleaningSystem.BATH_DURATION_MS }) ∧
    s.bathQueue = [C]) ∨
  (done = [A, B] ∧ s.currentBath = none ∧ s.bathQueue = [C]) ∨
  (done = [A, B] ∧
    (∃ st, s.currentBath = some { id := C, start := st, durationMs := CleaningSystem.BATH_DURATION_MS }) ∧
    s.bathQueue = []) ∨
  (done = [A, B, C] ∧ s.currentBath = none ∧ s.bathQueue = [])

/-- The care-stat invariant of §3: hunger, cleanliness and happiness lie in
`[0, 100]`. -/
def careStatsOK (a : Animal) : Prop :=
  0 ≤ a.hunger ∧ a.hunger ≤ 100 ∧
  0 ≤ a.cleanliness ∧ a.cleanliness ≤ 100 ∧
  0 ≤ a.happiness ∧ a.happiness ≤ 100

instance (a : Animal) : Decidable (careStatsOK a) := by
  unfold careStatsOK; infer_instance

/-- The states reachable from the fresh `GameState` by any interleaving of
per-second pipeline steps and the user-initiated operations wired up in
`js/ui.js` (buy egg, feed, clean, sell, clinic enqueue, clinic cancel,
habitat assignment, prestige, restart), plus `LoseSystem.tick`.  The static
tables `pools` and `eggData` are arbitrary. -/
inductive Reachable (pools : HatchingSystem.AnimalPoolsT)
    (eggData : EconomySystem.EggDataT) : GState → Prop where
  | init (bootTime : ℤ) : Reachable pools eggData (initialGameState bootTime)
  | step {s : GState} (r : TickRand) (now : ℤ) :
      Reachable pools eggData s → Reachable pools eggData (gameTick pools r now s)
  | buyEgg {s : GState} (typeKey : String) (freshId : Nat) (now : ℤ) :
      Reachable pools eggData s →
      Reachable pools eggData (EconomySystem.buyEgg eggData typeKey freshId now s).1
  | feed {s : GState} (id : Nat) :
      Reachable pools eggData s →
      Reachable pools eggData (FeedingSystem.feedAnimalById s id).1
  | clean {s : GState} (id : Nat) :
      Reachable pools eggData s →
      Reachable pools eggData (CleaningSystem.sendToBathById s id).1
  | sell {s : GState} (id : Nat) :
      Reachable pools eggData s →
      Reachable pools eggData (EconomySystem.sellAnimalById s id).1
  | clinicSend {s : GState} (id : Nat) :
      Reachable pools eggData s →
      Reachable pools eggData (DiseaseSystem.clinicEnqueueRecorded s id).1
  | clinicCancel {s : GState} (id : Nat) :
      Reachable pools eggData s →
      Reachable pools eggData (DiseaseSystem.cancelClinicById s id).1
  | habitatAssign {s : GState} (id : Nat) (key : String) :
      Reachable pools eggData s →
      Reachable pools eggData (HabitatSystem.assignToHabitat s id key).1
  | prestige {s : GState} (now : ℤ) :
      Reachable pools eggData s →
      Reachable pools eggData (PrestigeSystem.doPrestige now s).1
  | restart {s : GState} (now : ℤ) :
      Reachable pools eggData s →
      Reachable pools eggData (LoseSystem.restartGame now s)
  | loseCheck {s : GState} :
      Reachable pools eggData s →
      Reachable pools eggData (LoseSystem.tick eggData s)

/-! ### Concrete states for counterexamples and witnesses -/

/-- A healthy animal with positive hunger, cleanliness and base income `2`,
and all per-animal multipliers `1`. -/
def testAnimal (id : Nat) : Animal :=
  { id := id
    rarity := "Common"
    income := 2
    hunger := 50
    cleanliness := 50
    happiness := 70
    healthStatus := Health.healthy
    neglectTicks := 0
    habitat := none
    habitatBonusMultiplier := 1
    happinessIncomeMultiplier := 1
    effectiveIncome := 2
    fromEggType := "common" }

/-- A deterministic randomness bundle: the chooser takes the head of the
pool, and the event roll `1` never passes the `0.05` trigger chance. -/
def quietRand : TickRand :=
  { choose := List.head?
    freshBase := 1000
    roll := 1
    eIdx := 0
    draw := 0 }

/-- A one-pool table: every egg type hatches a fixed income-`3` template. -/
def constPools : HatchingSystem.AnimalPoolsT :=
  fun _ => [{ name := "Spark Fox", rarity := "Rare", income := 3 }]

/-- A one-entry `EggData` table: a `common` egg costing `20` with an `8000` ms
hatch time. -/
def testEggData : EconomySystem.EggDataT :=
  [("common", { price := 20, hatchTime := some 8000, type := none })]

/-- An `EggData` table whose single entry has a missing/non-numeric
`hatchTime` (C10). -/
def brokenEggData : EconomySystem.EggDataT :=
  [("common", { price := 20, hatchTime := none, type := none })]

/-- C1's counterexample state: the only animal occupies the bath's active
slot while healthy with positive hunger and cleanliness. -/
def c1State : GState :=
  { initialGameState 0 with
    animals := [testAnimal 1]
    currentBath := some { id := 1, start := 0, durationMs := 7000 } }

/-- C2's counterexample state: the game is over (reason `bankrupt`), one
eligible animal remains, and the event cooldown blocks any event this tick. -/
def c2State : GState :=
  { initialGameState 0 with
    isGameOver := true
    gameOverReason := some "bankrupt"
    animals := [testAnimal 1] }

/-- C3's counterexample state: animal `1` occupies the bath's active slot,
animal `2` does not. -/
def c3State : GState :=
  { initialGameState 0 with
    animals := [testAnimal 1, testAnimal 2]
    currentBath := some { id := 1, start := 0, durationMs := 7000 } }

/-- C5's witness animal: healthy, neglect counter `0`, hunger and cleanliness
both below the neglect thresholds. -/
def c5Animal : Animal :=
  { testAnimal 5 with hunger := 10, cleanliness := 10 }

/-- C4's witness state: animal `7` (sick, income `3`) waits in the clinic
queue with a recorded cost of `75`, animal `8` (sick) is the active patient. -/
def c4State : GState :=
  { initialGameState 0 with
    animals :=
      [{ testAnimal 7 with healthStatus := Health.sick },
       { testAnimal 8 with healthStatus := Health.sick }]
    clinicQueue := [7]
    clinicQueueCosts := [(7, 75)]
    currentPatient := some { id := 8, start := 0, durationMs := 10000 } }

/-- C6's witness state: animals `1`, `2`, `3` enqueued in that order into an
empty bath house. -/
def c6State : GState :=
  { initialGameState 0 with
    animals := [testAnimal 1, testAnimal 2, testAnimal 3]
    bathQueue := [1, 2, 3] }

/-- A schedule long enough to complete all three baths (duration `7000` ms). -/
def c6Times : List ℤ := [0, 7000, 7001, 14001, 14002, 21002]

/-- C7's witness state: enough coins and animals to prestige. -/
def c7State : GState :=
  { initialGameState 0 with
    coins := 500
    animals := [testAnimal 1, testAnimal 2, testAnimal 3]
    eggs := [{ id := 4, type := "common", start := 0, hatchTime := 8000 }]
    bathQueue := [2]
    leaderboard := [{ coins := 1, maxCoins := 1, petsHatched := 1,
                      highestRarity := "Common", prestigesBefore := 0,
                      prestigesAfter := 1, timePlayed := 5 }] }

/-- C9's counterexample state: fresh run whose event cooldown has already
elapsed, so a trigger can fire at `now = 0`. -/
def c9State : GState :=
  { initialGameState 0 with
    events := { activeEvents := [], history := [], lastEventTime := -15000 } }

/-- C10's witness egg: a zero-duration egg as produced by `buyEgg` from
`brokenEggData`. -/
def c10Egg : Egg := { id := 1000, type := "common", start := 0, hatchTime := 0 }

/-- C10's witness state: the zero-duration egg sits in the incubator. -/
def c10State : GState :=
  { initialGameState 0 with eggs := [c10Egg] }

/-! ## Theorems -/

@[simp] theorem healthy_ne_sick : Health.healthy ≠ Health.sick := by decide

@[simp] theorem sick_ne_healthy : Health.sick ≠ Health.healthy := by decide

/-- The accumulator loop of `EconomySystem.tick` computes the sum of the
per-animal contributions. -/
theorem totalIncome_eq_sum (l : List Animal) :
    EconomySystem.totalIncome l =
      (l.map (fun a => if EconomySystem.canEarn a then a.income else 0)).sum := by
  induction l with
  | nil => simp [EconomySystem.totalIncome]
  | cons a rest ih => simp [EconomySystem.totalIncome, ih]

/-- C1 (counterexample): in `c1State` the only animal is healthy with
positive hunger and cleanliness but occupies the bath's active slot, so the
claim requires the Economy step to add exactly `0` to the balance; the
implemented `EconomySystem.tick` nonetheless adds the animal's base income
(`100 ↦ 102`), because it neither consults the bath slot nor the
multipliers. -/
theorem c1_bath_occupant_counterexample :
    Claims.specIncomeTotalC1 c1State = 0 ∧
    (EconomySystem.tick c1State).coins ≠ c1State.coins + Claims.specIncomeTotalC1 c1State ∧
    (EconomySystem.tick c1State).coins = 102 := by
  refine ⟨?_, ?_, ?_⟩ <;>
    norm_num [Claims.specIncomeTotalC1, Claims.specContributionC1, EconomySystem.tick,
      EconomySystem.totalIncome, EconomySystem.canEarn, c1State, testAnimal,
      initialGameState, slotHolds]

/-! Frame lemmas: no per-second system touches the game-over flags. -/

theorem hatch_tick_frame (pools : HatchingSystem.AnimalPoolsT)
    (choose : List HatchingSystem.AnimalTemplate → Option HatchingSystem.AnimalTemplate)
    (now : ℤ) (freshBase : Nat) (s : GState) :
    (HatchingSystem.tick pools choose now freshBase s).isGameOver = s.isGameOver ∧
    (HatchingSystem.tick pools choose now freshBase s).gameOverReason = s.gameOverReason := by
  unfold HatchingSystem.tick
  exact ⟨rfl, rfl⟩

theorem promoteBath_frame (now : ℤ) (s : GState) :
    (CleaningSystem.promoteBath now s).isGameOver = s.isGameOver ∧
    (CleaningSystem.promoteBath now s).gameOverReason = s.gameOverReason := by
  unfold CleaningSystem.promoteBath
  constructor <;> (repeat' first | split | dsimp only)

theorem completeBath_frame (now : ℤ) (s : GState) :
    (CleaningSystem.completeBath now s).1.isGameOver = s.isGameOver ∧
    (CleaningSystem.completeBath now s).1.gameOverReason = s.gameOverReason := by
  unfold CleaningSystem.completeBath
  constructor <;> (repeat' first | split | dsimp only)

theorem cleaning_tickEv_frame (now : ℤ) (s : GState) :
    (CleaningSystem.tickEv now s).1.isGameOver = s.isGameOver ∧
    (CleaningSystem.tickEv now s).1.gameOverReason = s.gameOverReason := by
  unfold CleaningSystem.tickEv
  exact ⟨(completeBath_frame _ _).1.trans (promoteBath_frame _ _).1,
         (completeBath_frame _ _).2.trans (promoteBath_frame _ _).2⟩

theorem promoteClinic_frame (now : ℤ) (s : GState) :
    (DiseaseSystem.promoteClinic now s).isGameOver = s.isGameOver ∧
    (DiseaseSystem.promoteClinic now s).gameOverReason = s.gameOverReason := by
  unfold DiseaseSystem.promoteClinic
  constructor <;> (repeat' first | split | dsimp only)

theorem completeClinic_frame (now : ℤ) (s : GState) :
    (DiseaseSystem.completeClinic now s).isGameOver = s.isGameOver ∧
    (DiseaseSystem.completeClinic now s).gameOverReason = s.gameOverReason := by
  unfold DiseaseSystem.completeClinic
  constructor <;> (repeat' first | split | dsimp only)

theorem disease_tick_frame (now : ℤ) (s : GState) :
    (DiseaseSystem.tick now s).isGameOver = s.isGameOver ∧
    (DiseaseSystem.tick now s).gameOverReason = s.gameOverReason := by
  unfold DiseaseSystem.tick DiseaseSystem.processClinic
  refine ⟨(completeClinic_frame _ _).1.trans ((promoteClinic_frame _ _).1.trans ?_),
          (completeClinic_frame _ _).2.trans ((promoteClinic_frame _ _).2.trans ?_)⟩ <;>
    rfl

theorem habitat_tick_frame (s : GState) :
    (HabitatSystem.tick s).isGameOver = s.isGameOver ∧
    (HabitatSystem.tick s).gameOverReason = s.gameOverReason := by
  unfold HabitatSystem.tick
  exact ⟨rfl, rfl⟩

theorem happiness_tick_frame (s : GState) :
    (HappinessSystem.tick s).isGameOver = s.isGameOver ∧
    (HappinessSystem.tick s).gameOverReason = s.gameOverReason := by
  unfold HappinessSystem.tick
  exact ⟨rfl, rfl⟩

theorem evEffect_frame (draw : ℚ) (tid : EvId) (s : GState) :
    (EventsSystem.evEffect draw tid s).isGameOver = s.isGameOver ∧
    (EventsSystem.evEffect draw tid s).gameOverReason = s.gameOverReason := by
  cases tid <;> exact ⟨rfl, rfl⟩

theorem evRevert_frame (tid : EvId) (s : GState) :
    (EventsSystem.evRevert tid s).isGameOver = s.isGameOver ∧
    (EventsSystem.evRevert tid s).gameOverReason = s.gameOverReason := by
  cases tid <;> exact ⟨rfl, rfl⟩

theorem revert_foldl_frame (l : List EventRecord) (s : GState) :
    (l.foldl (fun acc ev => EventsSystem.evRevert ev.tid acc) s).isGameOver = s.isGameOver ∧
    (l.foldl (fun acc ev => EventsSystem.evRevert ev.tid acc) s).gameOverReason
      = s.gameOverReason := by
  induction l generalizing s with
  | nil => exact ⟨rfl, rfl⟩
  | cons ev rest ih =>
    simp only [List.foldl_cons]
    exact ⟨((ih _).1).trans (evRevert_frame ev.tid s).1,
           ((ih _).2).trans (evRevert_frame ev.tid s).2⟩

theorem events_tick_frame (now : ℤ) (roll : ℚ) (eIdx : Nat) (draw : ℚ) (s : GState) :
    (EventsSystem.tick now roll eIdx draw s).isGameOver = s.isGameOver ∧
    (EventsSystem.tick now roll eIdx draw s).gameOverReason = s.gameOverReason := by
  unfold EventsSystem.tick EventsSystem.triggerRandomEventIfNeeded
    EventsSystem.processActiveEvents
  constructor <;> (repeat' split) <;>
    simp [revert_foldl_frame, (evEffect_frame _ _ _).1, (evEffect_frame _ _ _).2,
      (revert_foldl_frame _ _).1, (revert_foldl_frame _ _).2]

theorem economy_tick_frame (s : GState) :
    (EconomySystem.tick s).isGameOver = s.isGameOver ∧
    (EconomySystem.tick s).gameOverReason = s.gameOverReason := by
  unfold EconomySystem.tick
  exact ⟨rfl, rfl⟩

/-- The whole per-second pipeline leaves `isGameOver` and `gameOverReason`
untouched (there is no game-over short-circuit in `gameTick`, and no system
writes those fields). -/
theorem gameTick_gameOver_frame (pools : HatchingSystem.AnimalPoolsT)
    (r : TickRand) (now : ℤ) (s : GState) :
    (gameTick pools r now s).isGameOver = s.isGameOver ∧
    (gameTick pools r now s).gameOverReason = s.gameOverReason := by
  unfold gameTick
  constructor
  · exact (economy_tick_frame _).1.trans <| (events_tick_frame _ _ _ _ _).1.trans <|
      (happiness_tick_frame _).1.trans <| (habitat_tick_frame _).1.trans <|
      (disease_tick_frame _ _).1.trans <| (cleaning_tickEv_frame _ _).1.trans <|
      (hatch_tick_frame _ _ _ _ _).1
  · exact (economy_tick_frame _).2.trans <| (events_tick_frame _ _ _ _ _).2.trans <|
      (happiness_tick_frame _).2.trans <| (habitat_tick_frame _).2.trans <|
      (disease_tick_frame _ _).2.trans <| (cleaning_tickEv_frame _ _).2.trans <|
      (hatch_tick_frame _ _ _ _ _).2

/-- C2 (counterexample): `c2State` is terminal (`isGameOver = true`, reason
`bankrupt`) yet the next pipeline step still mutates the balance — the
remaining animal earns its income and the coins move from `100` to `102`; the
pipeline has no terminal freeze. -/
theorem c2_tick_after_game_over_counterexample :
    c2State.isGameOver = true ∧
    (gameTick constPools quietRand 1000 c2State).coins = 102 ∧
    (gameTick constPools quietRand 1000 c2State).coins ≠ c2State.coins := by
  refine ⟨rfl, ?_, ?_⟩ <;>
    norm_num [gameTick, HatchingSystem.tick, HatchingSystem.hatchLoop,
      CleaningSystem.tick, CleaningSystem.tickEv, CleaningSystem.promoteBath,
      CleaningSystem.completeBath, DiseaseSystem.tick,
      DiseaseSystem.checkAndUpdateSickness, DiseaseSystem.processClinic,
      DiseaseSystem.promoteClinic, DiseaseSystem.completeClinic,
      DiseaseSystem.sicknessStep, HabitatSystem.tick, HabitatSystem.ensureHabitatState,
      HabitatSystem.cleanUpHabitatAssignments, HabitatSystem.habitatEffect,
      HabitatSystem.HabitatConfig, HabitatSystem.getHabitatConfig,
      HappinessSystem.tick, HappinessSystem.updateSingleAnimalHappiness,
      HappinessSystem.computeHappinessMultiplier, HappinessSystem.HUNGER_DECAY_PER_TICK,
      HappinessSystem.NATURAL_DRIFT_PER_TICK, HappinessSystem.PENALTY_PER_TICK_HUNGRY,
      HappinessSystem.PENALTY_PER_TICK_DIRTY, HappinessSystem.PENALTY_PER_TICK_SICK,
      HappinessSystem.BONUS_PER_TICK_WELL_CARED, HappinessSystem.HUNGER_OK_THRESHOLD,
      HappinessSystem.CLEANLINESS_OK_THRESHOLD,
      EventsSystem.tick, EventsSystem.processActiveEvents,
      EventsSystem.triggerRandomEventIfNeeded, EventsSystem.MIN_TIME_BETWEEN_EVENTS_MS,
      EconomySystem.tick, EconomySystem.totalIncome, EconomySystem.canEarn,
      DiseaseSystem.NEGLECT_THRESHOLD_HUNGER, DiseaseSystem.NEGLECT_THRESHOLD_CLEANLINESS,
      DiseaseSystem.NEGLECT_TICKS_BEFORE_SICK, DiseaseSystem.CLINIC_DURATION_MS,
      DiseaseSystem.cureAnimal, CleaningSystem.BATH_DURATION_MS,
      CleaningSystem.MAX_CLEANLINESS, CleaningSystem.finishBath, updateFirst,
      EventsSystem.EVENT_CHANCE_PER_TICK,
      c2State, testAnimal, initialGameState, quietRand, constPools, clamp,
      max_def, min_def]

/-- C2 (amended): once `isGameOver` is true, subsequent pipeline steps leave
the terminal flag and `gameOverReason` unchanged, and `LoseSystem.tick` is a
no-op — but the pipeline itself keeps running (hatching, decay, economy), so
the balance, animals and eggs may still change; only the game-over flags are
frozen until `restart()`. -/
theorem c2_game_over_flags_frozen (pools : HatchingSystem.AnimalPoolsT)
    (eggData : EconomySystem.EggDataT) (r : TickRand) (now : ℤ) (s : GState)
    (h : s.isGameOver = true) :
    (gameTick pools r now s).isGameOver = true ∧
    (gameTick pools r now s).gameOverReason = s.gameOverReason ∧
    LoseSystem.tick eggData s = s := by
  refine ⟨(gameTick_gameOver_frame pools r now s).1.trans h,
    (gameTick_gameOver_frame pools r now s).2, ?_⟩
  unfold LoseSystem.tick
  simp [h]

/-- C2 (witness): the amended theorem applied to the concrete terminal state
`c2State`. -/
theorem c2_game_over_flags_frozen_witness :
    (gameTick constPools quietRand 1000 c2State).isGameOver = true ∧
    (gameTick constPools quietRand 1000 c2State).gameOverReason
      = c2State.gameOverReason ∧
    LoseSystem.tick testEggData c2State = c2State :=
  c2_game_over_flags_frozen constPools testEggData quietRand 1000 c2State rfl

/-- C1 (amended): each per-second `EconomySystem.tick` adds to the balance —
and stores as the displayed income — exactly the sum over all animals of the
animal's base income when its base income, hunger and cleanliness are
positive and it is not sick, and `0` otherwise; the happiness, habitat,
prestige and event multipliers and the bath slot play no role. -/
theorem c1_economy_tick_adds_base_income (s : GState) :
    (EconomySystem.tick s).coins =
      s.coins + (s.animals.map (fun a => if EconomySystem.canEarn a then a.income else 0)).sum ∧
    (EconomySystem.tick s).incomePerSecond =
      (s.animals.map (fun a => if EconomySystem.canEarn a then a.income else 0)).sum := by
  unfold EconomySystem.tick
  rw [totalIncome_eq_sum]
  exact ⟨rfl, rfl⟩

/-- The legacy decay-and-income pass returns exactly the per-animal decay map
on its animal list. -/
theorem legacy_decayAndIncome_animals (cb : Option Legacy.LBath)
    (l : List Legacy.LAnimal) :
    (Legacy.decayAndIncome cb l).1 = l.map (Legacy.decayOne cb) := by
  induction l with
  | nil => rfl
  | cons a rest ih => simp [Legacy.decayAndIncome, ih]

/-- C3 (amended): the per-animal decay rule holds in the *legacy* engine
(`script.js`): after a `tick`, each animal that entered the decay pass (the
state after the hatch and bath phases) has hunger decremented by `1` and
cleanliness by `0.7`, each floored at `0` — except the occupant of the bath's
active slot, which receives neither decrement.  (In the modular pipeline the
rule fails; see the counterexample.) -/
theorem c3_legacy_decay_rule (eggTypes : Legacy.LEggTypesT)
    (choose : List HatchingSystem.AnimalTemplate → Option HatchingSystem.AnimalTemplate)
    (now : ℤ) (freshBase : Nat) (s : Legacy.LState) :
    (Legacy.tick eggTypes choose now freshBase s).zooAnimals =
      (Legacy.processBath now (Legacy.hatchPhase eggTypes choose now freshBase s)).zooAnimals.map
        (fun a =>
          if Legacy.isInBath
              (Legacy.processBath now (Legacy.hatchPhase eggTypes choose now freshBase s)).currentBath
              a
          then a
          else { a with
            hunger := max 0 (a.hunger - 1)
            cleanliness := max 0 (a.cleanliness - 7/10) }) := by
  show (let s1 := Legacy.hatchPhase eggTypes choose now freshBase s
        let s2 := Legacy.processBath now s1
        let r := Legacy.decayAndIncome s2.currentBath s2.zooAnimals
        ({ s2 with
            zooAnimals := r.1
            coins := if 0 < r.2 then s2.coins + r.2 else s2.coins } : Legacy.LState)).zooAnimals
      = _
  simp only [legacy_decayAndIncome_animals]
  apply List.map_congr_left
  intro a _
  unfold Legacy.decayOne Legacy.HUNGER_DECAY_PER_TICK Legacy.CLEAN_DECAY_PER_TICK
  rfl

/-- C3 (counterexample): in the modular pipeline the decay rule of the claim
fails at a concrete state.  In `c3State` animal `1` occupies the bath's
active slot and animal `2` does not; after one `gameTick`, animal `1`'s
hunger has nonetheless been decremented (`50 ↦ 49.5`), and animal `2`'s
cleanliness has not been decremented at all (`50 ↦ 50`) — the modular engine
has no bath exemption for hunger decay and no per-step cleanliness decay. -/
theorem c3_modular_counterexample :
    slotHolds c3State.currentBath 1 = true ∧
    (gameTick constPools quietRand 1000 c3State).animals.map
        (fun a => (a.id, a.hunger, a.cleanliness))
      = [(1, 99/2, 50), (2, 99/2, 50)] ∧
    (99/2 : ℚ) ≠ 50 := by
  refine ⟨rfl, ?_, by norm_num⟩
  norm_num [gameTick, HatchingSystem.tick, HatchingSystem.hatchLoop,
    CleaningSystem.tick, CleaningSystem.tickEv, CleaningSystem.promoteBath,
    CleaningSystem.completeBath, DiseaseSystem.tick,
    DiseaseSystem.checkAndUpdateSickness, DiseaseSystem.processClinic,
    DiseaseSystem.promoteClinic, DiseaseSystem.completeClinic,
    DiseaseSystem.sicknessStep, HabitatSystem.tick, HabitatSystem.ensureHabitatState,
    HabitatSystem.cleanUpHabitatAssignments, HabitatSystem.habitatEffect,
    HabitatSystem.HabitatConfig, HabitatSystem.getHabitatConfig,
    HappinessSystem.tick, HappinessSystem.updateSingleAnimalHappiness,
    HappinessSystem.computeHappinessMultiplier, HappinessSystem.HUNGER_DECAY_PER_TICK,
    HappinessSystem.NATURAL_DRIFT_PER_TICK, HappinessSystem.PENALTY_PER_TICK_HUNGRY,
    HappinessSystem.PENALTY_PER_TICK_DIRTY, HappinessSystem.PENALTY_PER_TICK_SICK,
    HappinessSystem.BONUS_PER_TICK_WELL_CARED, HappinessSystem.HUNGER_OK_THRESHOLD,
    HappinessSystem.CLEANLINESS_OK_THRESHOLD,
    EventsSystem.tick, EventsSystem.processActiveEvents,
    EventsSystem.triggerRandomEventIfNeeded, EventsSystem.MIN_TIME_BETWEEN_EVENTS_MS,
    EconomySystem.tick, EconomySystem.totalIncome, EconomySystem.canEarn,
    DiseaseSystem.NEGLECT_THRESHOLD_HUNGER, DiseaseSystem.NEGLECT_THRESHOLD_CLEANLINESS,
    DiseaseSystem.NEGLECT_TICKS_BEFORE_SICK, DiseaseSystem.CLINIC_DURATION_MS,
    DiseaseSystem.cureAnimal, CleaningSystem.BATH_DURATION_MS,
    CleaningSystem.MAX_CLEANLINESS, CleaningSystem.finishBath, updateFirst,
    EventsSystem.EVENT_CHANCE_PER_TICK,
    c3State, testAnimal, initialGameState, quietRand, constPools, clamp,
    max_def, min_def]

/-- Below the neglect thresholds, a healthy animal's sickness check increments
the neglect counter and otherwise leaves it untouched, as long as the counter
stays below the threshold. -/
theorem sicknessStep_neglected_below (a : Animal)
    (h1 : a.healthStatus = Health.healthy)
    (h2 : a.hunger < DiseaseSystem.NEGLECT_THRESHOLD_HUNGER)
    (h3 : a.cleanliness < DiseaseSystem.NEGLECT_THRESHOLD_CLEANLINESS)
    (h4 : a.neglectTicks + 1 < DiseaseSystem.NEGLECT_TICKS_BEFORE_SICK) :
    DiseaseSystem.sicknessStep a = { a with neglectTicks := a.neglectTicks + 1 } := by
  unfold DiseaseSystem.sicknessStep
  rw [h1]
  have hcap : a.neglectTicks + 1 ≤ DiseaseSystem.NEGLECT_TICKS_BEFORE_SICK * 2 := by
    unfold DiseaseSystem.NEGLECT_TICKS_BEFORE_SICK at h4 ⊢; omega
  simp [h2, h3, min_eq_left hcap]
  omega

/-- Below the neglect thresholds, a healthy animal whose counter is one short
of the threshold turns sick on the next check, with the clamped `-15`
happiness penalty. -/
theorem sicknessStep_neglected_hits (a : Animal)
    (h1 : a.healthStatus = Health.healthy)
    (h2 : a.hunger < DiseaseSystem.NEGLECT_THRESHOLD_HUNGER)
    (h3 : a.cleanliness < DiseaseSystem.NEGLECT_THRESHOLD_CLEANLINESS)
    (h4 : a.neglectTicks + 1 = DiseaseSystem.NEGLECT_TICKS_BEFORE_SICK) :
    DiseaseSystem.sicknessStep a =
      { a with
        neglectTicks := a.neglectTicks + 1
        healthStatus := Health.sick
        happiness := clamp (a.happiness - 15) 0 100 } := by
  unfold DiseaseSystem.sicknessStep
  rw [h1]
  have hcap : a.neglectTicks + 1 ≤ DiseaseSystem.NEGLECT_TICKS_BEFORE_SICK * 2 := by
    unfold DiseaseSystem.NEGLECT_TICKS_BEFORE_SICK at h4 ⊢; omega
  simp [h2, h3, min_eq_left hcap]
  omega

/-- Iterating the sickness check over consecutive neglected steps from a
fresh counter: for the first `k < 20` steps only the counter moves. -/
theorem sicknessStep_iterate_below (a : Animal)
    (h1 : a.healthStatus = Health.healthy) (h2 : a.neglectTicks = 0)
    (h3 : a.hunger < DiseaseSystem.NEGLECT_THRESHOLD_HUNGER)
    (h4 : a.cleanliness < DiseaseSystem.NEGLECT_THRESHOLD_CLEANLINESS) :
    ∀ k, k < DiseaseSystem.NEGLECT_TICKS_BEFORE_SICK →
      (DiseaseSystem.sicknessStep)^[k] a = { a with neglectTicks := k } := by
  intro k
  induction k with
  | zero => intro _; rw [Function.iterate_zero_apply, ← h2]
  | succ n ih =>
    intro hk
    have hn : n < DiseaseSystem.NEGLECT_TICKS_BEFORE_SICK := Nat.lt_of_succ_lt hk
    rw [Function.iterate_succ_apply', ih hn]
    rw [sicknessStep_neglected_below]
    · exact h1
    · exact h3
    · exact h4
    · unfold DiseaseSystem.NEGLECT_TICKS_BEFORE_SICK at hk ⊢
      simpa using hk

/-- Exactly on the 20th consecutive neglected check the animal turns sick
with the one-time penalty. -/
theorem sicknessStep_iterate_hits (a : Animal)
    (h1 : a.healthStatus = Health.healthy) (h2 : a.neglectTicks = 0)
    (h3 : a.hunger < DiseaseSystem.NEGLECT_THRESHOLD_HUNGER)
    (h4 : a.cleanliness < DiseaseSystem.NEGLECT_THRESHOLD_CLEANLINESS) :
    (DiseaseSystem.sicknessStep)^[DiseaseSystem.NEGLECT_TICKS_BEFORE_SICK] a =
      { a with
        neglectTicks := DiseaseSystem.NEGLECT_TICKS_BEFORE_SICK
        healthStatus := Health.sick
        happiness := clamp (a.happiness - 15) 0 100 } := by
  have hiter := sicknessStep_iterate_below a h1 h2 h3 h4
  have h20 : DiseaseSystem.NEGLECT_TICKS_BEFORE_SICK = 19 + 1 := rfl
  rw [h20, Function.iterate_succ_apply', hiter 19 (by rw [h20]; omega)]
  rw [sicknessStep_neglected_hits { a with neglectTicks := 19 } h1 h3 h4 rfl]

/-- C5: the health state machine.  Starting from a healthy animal with a
fresh neglect counter that stays under both neglect thresholds: (a) during
the first 19 consecutive neglected checks the animal stays healthy, its
neglect counter equals the number of neglected steps, and its happiness is
untouched; (b) exactly on the 20th consecutive neglected check it turns
sick, with the one-time clamped `-15` happiness penalty; (c) the sickness
check never touches a sick animal (sickness never resolves through decay or
time), and (d) only a completed clinic treatment cures: when the current
patient's duration has elapsed, `completeClinic` applies `cureAnimal`
(health `healthy`, neglect `0`, clamped `+10` happiness) and frees the
slot. -/
theorem c5_health_state_machine (a : Animal) (s : GState) (p : Slot) (now : ℤ)
    (h1 : a.healthStatus = Health.healthy) (h2 : a.neglectTicks = 0)
    (h3 : a.hunger < DiseaseSystem.NEGLECT_THRESHOLD_HUNGER)
    (h4 : a.cleanliness < DiseaseSystem.NEGLECT_THRESHOLD_CLEANLINESS) :
    (∀ k, k < DiseaseSystem.NEGLECT_TICKS_BEFORE_SICK →
      ((DiseaseSystem.sicknessStep)^[k] a).healthStatus = Health.healthy ∧
      ((DiseaseSystem.sicknessStep)^[k] a).neglectTicks = k ∧
      ((DiseaseSystem.sicknessStep)^[k] a).happiness = a.happiness) ∧
    ((DiseaseSystem.sicknessStep)^[DiseaseSystem.NEGLECT_TICKS_BEFORE_SICK] a).healthStatus
        = Health.sick ∧
    ((DiseaseSystem.sicknessStep)^[DiseaseSystem.NEGLECT_TICKS_BEFORE_SICK] a).happiness
        = clamp (a.happiness - 15) 0 100 ∧
    (∀ b : Animal, b.healthStatus = Health.sick → DiseaseSystem.sicknessStep b = b) ∧
    (∀ b : Animal, (DiseaseSystem.cureAnimal b).healthStatus = Health.healthy ∧
      (DiseaseSystem.cureAnimal b).neglectTicks = 0) ∧
    (s.currentPatient = some p → 0 < p.durationMs → now - p.start ≥ p.durationMs →
      (DiseaseSystem.completeClinic now s).animals
          = updateFirst p.id DiseaseSystem.cureAnimal s.animals ∧
      (DiseaseSystem.completeClinic now s).currentPatient = none) := by
  have hiter := sicknessStep_iterate_below a h1 h2 h3 h4
  refine ⟨?_, ?_, ?_, ?_, ?_, ?_⟩
  · intro k hk
    rw [hiter k hk]
    exact ⟨h1, rfl, rfl⟩
  · rw [sicknessStep_iterate_hits a h1 h2 h3 h4]
  · rw [sicknessStep_iterate_hits a h1 h2 h3 h4]
  · intro b hb
    unfold DiseaseSystem.sicknessStep
    rw [hb]
    simp
  · intro b
    exact ⟨rfl, rfl⟩
  · intro hp hd hnow
    unfold DiseaseSystem.completeClinic
    rw [hp]
    constructor <;> simp [hd, hnow]

theorem filter_ne_any_self (l : List Nat) (id : Nat) :
    (l.filter (fun i => i ≠ id)).any (fun i => i = id) = false := by
  induction l with
  | nil => rfl
  | cons x rest ih =>
    by_cases hx : x = id <;> simp [hx, List.filter_cons, ih]

theorem append_singleton_any (l : List Nat) (id : Nat) :
    (l ++ [id]).any (fun i => i = id) = true := by
  simp

theorem recordedCost_append_of_not_found (costs : List (Nat × ℚ)) (id : Nat) (c : ℚ)
    (h : costs.find? (fun e => e.1 = id) = none) :
    DiseaseSystem.recordedCost (costs ++ [(id, c)]) id = c := by
  unfold DiseaseSystem.recordedCost
  rw [List.find?_append, h]
  simp

/-- Cancelling a queued clinic entry: refund and removal. -/
theorem cancelClinicById_queued (s : GState) (id : Nat)
    (hq : id ∈ s.clinicQueue) :
    DiseaseSystem.cancelClinicById s id =
      ({ s with
          coins := s.coins + DiseaseSystem.recordedCost s.clinicQueueCosts id
          clinicQueue := s.clinicQueue.filter (fun i => i ≠ id)
          clinicQueueCosts := s.clinicQueueCosts.filter (fun e => e.1 ≠ id) }, true) := by
  unfold DiseaseSystem.cancelClinicById
  rw [if_pos (by simpa using hq)]

/-- Cancelling the active patient: slot cleared, nothing else changes. -/
theorem cancelClinicById_active (s : GState) (id : Nat)
    (hq : id ∉ s.clinicQueue) (hp : slotHolds s.currentPatient id = true) :
    DiseaseSystem.cancelClinicById s id = ({ s with currentPatient := none }, true) := by
  unfold DiseaseSystem.cancelClinicById
  rw [if_neg (by simpa using hq), if_pos hp]

/-- Cancelling an id that is neither queued nor active: failing no-op. -/
theorem cancelClinicById_noop (s : GState) (id : Nat)
    (hq : id ∉ s.clinicQueue) (hp : slotHolds s.currentPatient id = false) :
    DiseaseSystem.cancelClinicById s id = (s, false) := by
  unfold DiseaseSystem.cancelClinicById
  rw [if_neg (by simpa using hq), if_neg (by simp [hp])]

/-- C4: clinic cancellation (spec-modelled, see `cancelClinicById`).
(a) Cancelling a queued entry removes the id from the waiting queue and its
cost record, and refunds exactly the recorded cost; (b) doing it a second
time fails and changes nothing ("exactly once"); (c) cancelling the active
patient clears the slot with no refund and without touching any animal (a
sick animal stays sick); (d) cancelling an id that is neither queued nor
active is a failing no-op; (e) enqueue-then-cancel refunds exactly the cost
recorded at enqueue time: the balance returns to its original value. -/
theorem c4_cancel_clinic_refund (s : GState) (id : Nat) :
    (id ∈ s.clinicQueue →
      DiseaseSystem.cancelClinicById s id =
        ({ s with
            coins := s.coins + DiseaseSystem.recordedCost s.clinicQueueCosts id
            clinicQueue := s.clinicQueue.filter (fun i => i ≠ id)
            clinicQueueCosts := s.clinicQueueCosts.filter (fun e => e.1 ≠ id) }, true)) ∧
    (id ∈ s.clinicQueue →
      slotHolds s.currentPatient id = false →
      DiseaseSystem.cancelClinicById (DiseaseSystem.cancelClinicById s id).1 id
        = ((DiseaseSystem.cancelClinicById s id).1, false)) ∧
    (id ∉ s.clinicQueue →
      slotHolds s.currentPatient id = true →
      DiseaseSystem.cancelClinicById s id = ({ s with currentPatient := none }, true)) ∧
    (id ∉ s.clinicQueue →
      slotHolds s.currentPatient id = false →
      DiseaseSystem.cancelClinicById s id = (s, false)) ∧
    (∀ a : Animal, getAnimalById s.animals id = some a →
      a.healthStatus = Health.sick →
      id ∉ s.clinicQueue →
      slotHolds s.currentPatient id = false →
      ¬ (0 < a.income * DiseaseSystem.CLINIC_COST_MULTIPLIER ∧
          s.coins < a.income * DiseaseSystem.CLINIC_COST_MULTIPLIER) →
      s.clinicQueueCosts.find? (fun e => e.1 = id) = none →
      (DiseaseSystem.clinicEnqueueRecorded s id).2 = true ∧
      (DiseaseSystem.cancelClinicById (DiseaseSystem.clinicEnqueueRecorded s id).1 id).1.coins
        = s.coins) := by
  refine ⟨fun hq => cancelClinicById_queued s id hq, ?_,
    fun hq hp => cancelClinicById_active s id hq hp,
    fun hq hp => cancelClinicById_noop s id hq hp, ?_⟩
  · intro hq hp
    rw [cancelClinicById_queued s id hq]
    exact cancelClinicById_noop _ id (by simp) hp
  · intro a hga hsick hq hp hcost hfind
    have henq : DiseaseSystem.clinicEnqueueRecorded s id =
        ({ (if 0 < a.income * DiseaseSystem.CLINIC_COST_MULTIPLIER then
              { s with coins := s.coins - a.income * DiseaseSystem.CLINIC_COST_MULTIPLIER }
            else s) with
            clinicQueue := s.clinicQueue ++ [id]
            clinicQueueCosts := s.clinicQueueCosts ++
              [(id, if 0 < a.income * DiseaseSystem.CLINIC_COST_MULTIPLIER then
                      a.income * DiseaseSystem.CLINIC_COST_MULTIPLIER else 0)] }, true) := by
      have hs1 : ¬ (a.healthStatus ≠ Health.sick) := by simp [hsick]
      have hs2 : ¬ (s.clinicQueue.any (fun i => i = id) = true) := by simpa using hq
      have hs3 : ¬ (slotHolds s.currentPatient id = true) := by simp [hp]
      unfold DiseaseSystem.clinicEnqueueRecorded DiseaseSystem.sendToClinicById
      rw [hga]
      dsimp only
      rw [if_neg hs1, if_neg hs2, if_neg hs3, if_neg hcost]
      by_cases hpos : 0 < a.income * DiseaseSystem.CLINIC_COST_MULTIPLIER <;>
        simp [hpos]
    refine ⟨by rw [henq], ?_⟩
    have hmem : id ∈ (DiseaseSystem.clinicEnqueueRecorded s id).1.clinicQueue := by
      rw [henq]
      by_cases hpos : 0 < a.income * DiseaseSystem.CLINIC_COST_MULTIPLIER <;> simp [hpos]
    rw [cancelClinicById_queued _ id hmem, henq]
    by_cases hpos : 0 < a.income * DiseaseSystem.CLINIC_COST_MULTIPLIER <;>
      simp [hpos, recordedCost_append_of_not_found _ _ _ hfind]

/-- C4 (witness): cancelling queued animal `7` in `c4State` refunds its
recorded cost `75` exactly once (`100 ↦ 175`, second cancel fails), and
cancelling active patient `8` clears the slot without refund. -/
theorem c4_cancel_clinic_refund_witness :
    (DiseaseSystem.cancelClinicById c4State 7).1.coins = 175 ∧
    DiseaseSystem.cancelClinicById (DiseaseSystem.cancelClinicById c4State 7).1 7
      = ((DiseaseSystem.cancelClinicById c4State 7).1, false) ∧
    DiseaseSystem.cancelClinicById c4State 8 = ({ c4State with currentPatient := none }, true) := by
  have h := c4_cancel_clinic_refund c4State 7
  have h8 := c4_cancel_clinic_refund c4State 8
  refine ⟨?_, h.2.1 (by decide) rfl, h8.2.2.1 (by decide) rfl⟩
  rw [h.1 (by decide)]
  norm_num [DiseaseSystem.recordedCost, c4State, initialGameState, testAnimal]

/-- C7: prestige gating and reset.  `doPrestige` fails without mutating
unless both configured minimums are met; on success it empties the animal,
egg, bath-queue and clinic-queue collections, nulls both active slots, sets
the balance to the configured post-prestige value, bumps `prestige.count`
and `totalPrestigePoints` by exactly one, adds exactly the configured
increment to the permanent global multiplier, and *appends* the run summary
to the leaderboard — the previous leaderboard entries and the prestige
counters are preserved, not cleared. -/
theorem c7_prestige_reset (now : ℤ) (s : GState) :
    (¬ PrestigeSystem.canPrestige s → PrestigeSystem.doPrestige now s = (s, false)) ∧
    (PrestigeSystem.canPrestige s →
      (PrestigeSystem.doPrestige now s).2 = true ∧
      (PrestigeSystem.doPrestige now s).1.animals = [] ∧
      (PrestigeSystem.doPrestige now s).1.eggs = [] ∧
      (PrestigeSystem.doPrestige now s).1.bathQueue = [] ∧
      (PrestigeSystem.doPrestige now s).1.clinicQueue = [] ∧
      (PrestigeSystem.doPrestige now s).1.currentBath = none ∧
      (PrestigeSystem.doPrestige now s).1.currentPatient = none ∧
      (PrestigeSystem.doPrestige now s).1.coins
        = PrestigeSystem.STARTING_COINS_AFTER_PRESTIGE ∧
      (PrestigeSystem.doPrestige now s).1.prestige.count = s.prestige.count + 1 ∧
      (PrestigeSystem.doPrestige now s).1.prestige.totalPrestigePoints
        = s.prestige.totalPrestigePoints + 1 ∧
      (PrestigeSystem.doPrestige now s).1.modifiers.globalPrestigeMultiplier
        = s.modifiers.globalPrestigeMultiplier
          + PrestigeSystem.PRESTIGE_REWARD_INCOME_BOOST_PER_PRESTIGE ∧
      (PrestigeSystem.doPrestige now s).1.leaderboard
        = s.leaderboard ++
          [{ PrestigeSystem.buildRunSummary now s with
              prestigesAfter := s.prestige.count + 1 }] ∧
      s.leaderboard <+: (PrestigeSystem.doPrestige now s).1.leaderboard) := by
  constructor
  · intro h
    unfold PrestigeSystem.doPrestige
    rw [if_neg h]
  · intro h
    unfold PrestigeSystem.doPrestige PrestigeSystem.applyPrestigeRewards
      PrestigeSystem.resetZooForNewRun
    rw [if_pos h]
    refine ⟨rfl, rfl, rfl, rfl, rfl, rfl, rfl, rfl, rfl, rfl, rfl, rfl, ?_⟩
    exact ⟨_, rfl⟩

/-- C7 (witness): prestiging from `c7State` (coins 500, three animals, one
egg, one queued bath, one prior leaderboard entry): the transient collections
empty, the balance resets to 100, the count and multiplier get their exact
increments, and the old leaderboard entry survives. -/
theorem c7_prestige_reset_witness :
    (PrestigeSystem.doPrestige 7 c7State).2 = true ∧
    (PrestigeSystem.doPrestige 7 c7State).1.animals = [] ∧
    (PrestigeSystem.doPrestige 7 c7State).1.eggs = [] ∧
    (PrestigeSystem.doPrestige 7 c7State).1.bathQueue = [] ∧
    (PrestigeSystem.doPrestige 7 c7State).1.coins = 100 ∧
    (PrestigeSystem.doPrestige 7 c7State).1.prestige.count = 1 ∧
    (PrestigeSystem.doPrestige 7 c7State).1.modifiers.globalPrestigeMultiplier = 11/10 ∧
    c7State.leaderboard <+: (PrestigeSystem.doPrestige 7 c7State).1.leaderboard := by
  have hcan : PrestigeSystem.canPrestige c7State := by
    constructor <;>
      norm_num [c7State, initialGameState, PrestigeSystem.MIN_COINS_FOR_PRESTIGE,
        PrestigeSystem.MIN_ANIMALS_FOR_PRESTIGE]
  have h := (c7_prestige_reset 7 c7State).2 hcan
  refine ⟨h.1, h.2.1, h.2.2.1, h.2.2.2.1, ?_, ?_, ?_, h.2.2.2.2.2.2.2.2.2.2.2.2⟩
  · rw [h.2.2.2.2.2.2.2.1]
    rfl
  · rw [h.2.2.2.2.2.2.2.2.1]
    norm_num [c7State, initialGameState]
  · rw [h.2.2.2.2.2.2.2.2.2.2.1]
    norm_num [c7State, initialGameState,
      PrestigeSystem.PRESTIGE_REWARD_INCOME_BOOST_PER_PRESTIGE]

/-- C9 (counterexample): a full trigger-then-expire cycle of the only timed
template (`double_tips`, drawn bonus 30) restores the global event
multiplier exactly, but leaves the coins permanently changed
(`100 ↦ 130`): the forward effect's instant coin bonus has no matching
revert, so forward-then-revert does not exactly undo the forward effect on
the shared global state it modified. -/
theorem c9_cycle_counterexample :
    (EventsSystem.tick 20000 1 0 0 (EventsSystem.tick 0 0 4 0 c9State)).modifiers.incomeBoostMultiplier
      = c9State.modifiers.incomeBoostMultiplier ∧
    (EventsSystem.tick 20000 1 0 0 (EventsSystem.tick 0 0 4 0 c9State)).coins = 130 ∧
    c9State.coins = 100 ∧
    (EventsSystem.tick 20000 1 0 0 (EventsSystem.tick 0 0 4 0 c9State)).coins
      ≠ c9State.coins := by
  refine ⟨?_, ?_, rfl, ?_⟩ <;>
    norm_num [EventsSystem.tick, EventsSystem.processActiveEvents,
      EventsSystem.triggerRandomEventIfNeeded, EventsSystem.evExpired,
      EventsSystem.evEffect, EventsSystem.evRevert, EventsSystem.evKind,
      EventsSystem.evDurationMs, EventsSystem.EventTemplates,
      EventsSystem.EVENT_CHANCE_PER_TICK, EventsSystem.MIN_TIME_BETWEEN_EVENTS_MS,
      c9State, initialGameState, List.filter]

/-- C9 (amended): for every *timed* event template, the revert applied after
the forward effect exactly restores the global event income multiplier
(`incomeBoostMultiplier` is doubled at start and exactly halved back), for
every state and every random draw — the multiplier suffers no permanent
drift; the instant coin bonus paid out by the forward effect, however, is
deliberately not reverted. -/
theorem c9_timed_revert_restores_multiplier (tid : EvId)
    (h : EventsSystem.evKind tid = EventsSystem.EvKind.timed) (draw : ℚ) (s : GState) :
    (EventsSystem.evRevert tid (EventsSystem.evEffect draw tid s)).modifiers.incomeBoostMultiplier
      = s.modifiers.incomeBoostMultiplier := by
  cases tid <;> simp only [EventsSystem.evKind] at h <;> try exact absurd h (by decide)
  show s.modifiers.incomeBoostMultiplier * 2 / 2 = s.modifiers.incomeBoostMultiplier
  ring

/-- C9 (witness): the amended theorem applied to `double_tips` on the fresh
state: the multiplier returns to `1`. -/
theorem c9_timed_revert_restores_multiplier_witness :
    (EventsSystem.evRevert EvId.double_tips
        (EventsSystem.evEffect 0 EvId.double_tips (initialGameState 0))).modifiers.incomeBoostMultiplier
      = (initialGameState 0).modifiers.incomeBoostMultiplier :=
  c9_timed_revert_restores_multiplier EvId.double_tips rfl 0 (initialGameState 0)

/-- `buyEgg` on a type whose configured hatch time is missing or non-numeric
produces an egg with `hatchTime = 0`. -/
theorem buyEgg_missing_hatchTime (eggData : EconomySystem.EggDataT) (key : String)
    (freshId : Nat) (now : ℤ) (s : GState) (d : EconomySystem.EggDef)
    (hd : EconomySystem.lookupEggDef eggData key = some d)
    (hht : d.hatchTime = none) (hcoins : ¬ s.coins < d.price) :
    EconomySystem.buyEgg eggData key freshId now s =
      ({ s with
          coins := s.coins - d.price
          eggs := s.eggs ++ [{ id := freshId, type := d.type.getD key, start := now,
                               hatchTime := 0 }] }, true) := by
  unfold EconomySystem.buyEgg
  rw [hd]
  dsimp only
  rw [if_neg hcoins, hht]
  rfl

/-- A zero-duration egg never satisfies the hatch readiness test. -/
theorem eggDue_zero (now : ℤ) (e : Egg) (h : e.hatchTime = 0) :
    ¬ HatchingSystem.eggDue now e := by
  intro hdue
  unfold HatchingSystem.eggDue at hdue
  rw [h] at hdue
  exact absurd hdue.2 (by decide)

/-- The hatching loop keeps every egg that is not due. -/
theorem hatchLoop_keeps_not_due (pools : HatchingSystem.AnimalPoolsT)
    (choose : List HatchingSystem.AnimalTemplate → Option HatchingSystem.AnimalTemplate)
    (now : ℤ) (base : Nat) (l : List Egg) (e : Egg)
    (he : e ∈ l) (hnd : ¬ HatchingSystem.eggDue now e) :
    e ∈ (HatchingSystem.hatchLoop pools choose now base l).1 := by
  induction l with
  | nil => cases he
  | cons x rest ih =>
    rcases List.mem_cons.mp he with he1 | he1
    · unfold HatchingSystem.hatchLoop
      subst he1
      rw [if_neg hnd]
      exact List.mem_cons_self ..
    · unfold HatchingSystem.hatchLoop
      split
      · exact ih he1
      · exact List.mem_cons_of_mem _ (ih he1)

/-- The hatching loop creates at most one animal per *due* egg. -/
theorem hatchLoop_hatched_le_due (pools : HatchingSystem.AnimalPoolsT)
    (choose : List HatchingSystem.AnimalTemplate → Option HatchingSystem.AnimalTemplate)
    (now : ℤ) (base : Nat) (l : List Egg) :
    (HatchingSystem.hatchLoop pools choose now base l).2.length
      ≤ (l.filter (fun x => decide (HatchingSystem.eggDue now x))).length := by
  induction l with
  | nil => simp [HatchingSystem.hatchLoop]
  | cons x rest ih =>
    unfold HatchingSystem.hatchLoop
    by_cases hx : HatchingSystem.eggDue now x
    · rw [if_pos hx, List.filter_cons_of_pos (by simpa using hx)]
      dsimp only
      rw [List.length_append, List.length_cons]
      have hh : (HatchingSystem.createAnimalFromEgg pools choose
          (base + rest.length) x).toList.length ≤ 1 := by
        cases HatchingSystem.createAnimalFromEgg pools choose (base + rest.length) x <;> simp
      omega
    · rw [if_neg hx, List.filter_cons_of_neg (by simpa using hx)]
      dsimp only
      exact ih

/-- A zero-duration egg survives a single hatch tick. -/
theorem hatch_tick_keeps_zero_egg (pools : HatchingSystem.AnimalPoolsT)
    (choose : List HatchingSystem.AnimalTemplate → Option HatchingSystem.AnimalTemplate)
    (now : ℤ) (base : Nat) (s : GState) (e : Egg)
    (he : e ∈ s.eggs) (h0 : e.hatchTime = 0) :
    e ∈ (HatchingSystem.tick pools choose now base s).eggs := by
  unfold HatchingSystem.tick
  exact hatchLoop_keeps_not_due pools choose now base s.eggs e he (eggDue_zero now e h0)

/-- C10: a zero-duration egg never hatches.  (a) `buyEgg` creates exactly such
an egg whenever the configured hatch time is missing or non-numeric;
(b) the egg is never considered due, at any current time; (c) it stays in the
incubating collection through any schedule of hatch ticks — it remains in the
incubator indefinitely; and (d) a hatch tick appends at most one animal per
*due* egg, so no animal is ever created from the zero-duration egg. -/
theorem c10_zero_duration_egg_never_hatches (eggData : EconomySystem.EggDataT)
    (key : String) (freshId : Nat) (now : ℤ) (s : GState) (d : EconomySystem.EggDef)
    (hd : EconomySystem.lookupEggDef eggData key = some d)
    (hht : d.hatchTime = none) (hcoins : ¬ s.coins < d.price) :
    ((EconomySystem.buyEgg eggData key freshId now s).1.eggs
        = s.eggs ++ [{ id := freshId, type := d.type.getD key, start := now,
                       hatchTime := 0 }] ∧
      (EconomySystem.buyEgg eggData key freshId now s).2 = true) ∧
    (∀ (s' : GState) (e : Egg), e ∈ s'.eggs → e.hatchTime = 0 →
      (∀ t : ℤ, ¬ HatchingSystem.eggDue t e) ∧
      (∀ (pools : HatchingSystem.AnimalPoolsT)
         (choose : List HatchingSystem.AnimalTemplate →
           Option HatchingSystem.AnimalTemplate)
         (ticks : List (ℤ × Nat)), e ∈ (hatchRun pools choose ticks s').eggs) ∧
      (∀ (pools : HatchingSystem.AnimalPoolsT)
         (choose : List HatchingSystem.AnimalTemplate →
           Option HatchingSystem.AnimalTemplate) (t : ℤ) (base : Nat),
        (HatchingSystem.tick pools choose t base s').animals.length
          ≤ s'.animals.length
            + (s'.eggs.filter (fun x => decide (HatchingSystem.eggDue t x))).length)) := by
  constructor
  · rw [buyEgg_missing_hatchTime eggData key freshId now s d hd hht hcoins]
    exact ⟨rfl, rfl⟩
  · intro s' e he h0
    refine ⟨fun t => eggDue_zero t e h0, ?_, ?_⟩
    · intro pools choose ticks
      induction ticks generalizing s' with
      | nil => exact he
      | cons t rest ih =>
        unfold hatchRun
        rw [List.foldl_cons]
        exact ih _ (hatch_tick_keeps_zero_egg pools choose t.1 t.2 s' e he h0)
    · intro pools choose t base
      unfold HatchingSystem.tick
      simp only [List.length_append]
      have := hatchLoop_hatched_le_due pools choose t base s'.eggs
      omega

/-- C10 (witness): buying from the table whose `common` entry has no numeric
hatch time yields the zero-duration egg `c10Egg`, and that egg survives a
schedule of hatch ticks unscathed while creating no animal. -/
theorem c10_zero_duration_egg_never_hatches_witness :
    (EconomySystem.buyEgg brokenEggData "common" 1000 0 (initialGameState 0)).1.eggs
      = [c10Egg] ∧
    c10Egg ∈ (hatchRun constPools List.head? [(5000, 0), (999999, 50)] c10State).eggs ∧
    (HatchingSystem.tick constPools List.head? 999999 0 c10State).animals.length = 0 := by
  have h := c10_zero_duration_egg_never_hatches brokenEggData "common" 1000 0
    (initialGameState 0) { price := 20, hatchTime := none, type := none }
    (by rfl) rfl (by norm_num [initialGameState])
  have hmem := (h.2 c10State c10Egg (by simp [c10State, initialGameState, c10Egg]) rfl)
  refine ⟨?_, hmem.2.1 constPools List.head? [(5000, 0), (999999, 50)], ?_⟩
  · rw [h.1.1]
    rfl
  · have hle := hmem.2.2 constPools List.head? 999999 0
    have hf : (c10State.eggs.filter
        (fun x => decide (HatchingSystem.eggDue 999999 x))).length = 0 := by decide
    have ha : c10State.animals.length = 0 := rfl
    omega

/-- C5 (witness): the state machine theorem applied to the concrete neglected
animal `c5Animal` and a clinic slot whose treatment just elapsed: after 19
checks the animal is still healthy with counter 19; the 20th check makes it
sick. -/
theorem c5_health_state_machine_witness :
    ((DiseaseSystem.sicknessStep)^[19] c5Animal).healthStatus = Health.healthy ∧
    ((DiseaseSystem.sicknessStep)^[20] c5Animal).healthStatus = Health.sick ∧
    (DiseaseSystem.completeClinic 10000 c4State).currentPatient = none := by
  have h := c5_health_state_machine c5Animal c4State
    { id := 8, start := 0, durationMs := 10000 } 10000
    rfl rfl (by norm_num [c5Animal, testAnimal, DiseaseSystem.NEGLECT_THRESHOLD_HUNGER])
    (by norm_num [c5Animal, testAnimal, DiseaseSystem.NEGLECT_THRESHOLD_CLEANLINESS])
  refine ⟨(h.1 19 (by norm_num [DiseaseSystem.NEGLECT_TICKS_BEFORE_SICK])).1, ?_, ?_⟩
  · have := h.2.1
    rwa [show DiseaseSystem.NEGLECT_TICKS_BEFORE_SICK = 20 from rfl] at this
  · exact ((h.2.2.2.2.2) rfl (by norm_num) (by norm_num)).2

/-- One bath tick preserves the bath-house invariant, extending the
completion list only with the next id in arrival order. -/
theorem bathInv_step (A B C : Nat) (now : ℤ) (s : GState) (done : List Nat)
    (h : bathInv A B C s done) :
    bathInv A B C (CleaningSystem.tickEv now s).1
      (done ++ ((CleaningSystem.tickEv now s).2).toList) := by
  have hdur : (0 : ℤ) < CleaningSystem.BATH_DURATION_MS := by decide
  have hnotnow : ¬ (now - now ≥ CleaningSystem.BATH_DURATION_MS) := by
    rw [sub_self]
    decide
  unfold CleaningSystem.tickEv
  rcases h with ⟨hd, hcb, hq⟩ | ⟨hd, ⟨st, hcb⟩, hq⟩ | ⟨hd, hcb, hq⟩ |
    ⟨hd, ⟨st, hcb⟩, hq⟩ | ⟨hd, hcb, hq⟩ | ⟨hd, ⟨st, hcb⟩, hq⟩ | ⟨hd, hcb, hq⟩
  · have hpb : CleaningSystem.promoteBath now s =
        { s with
          bathQueue := [B, C]
          currentBath := some { id := A, start := now, durationMs := CleaningSystem.BATH_DURATION_MS } } := by
      unfold CleaningSystem.promoteBath
      rw [hcb, hq]
    rw [hpb]
    unfold CleaningSystem.completeBath
    dsimp only
    rw [if_pos hdur, if_neg hnotnow]
    dsimp only
    rw [hd]
    exact Or.inr (Or.inl ⟨rfl, ⟨now, rfl⟩, rfl⟩)
  · have hpb : CleaningSystem.promoteBath now s = s := by
      unfold CleaningSystem.promoteBath
      rw [hcb]
    rw [hpb]
    unfold CleaningSystem.completeBath
    rw [hcb]
    dsimp only
    rw [if_pos hdur]
    by_cases hfin : now - st ≥ CleaningSystem.BATH_DURATION_MS
    · rw [if_pos hfin]
      dsimp only
      rw [hd]
      exact Or.inr (Or.inr (Or.inl ⟨rfl, rfl, hq⟩))
    · rw [if_neg hfin]
      dsimp only
      rw [hd]
      exact Or.inr (Or.inl ⟨rfl, ⟨st, hcb⟩, hq⟩)
  · have hpb : CleaningSystem.promoteBath now s =
        { s with
          bathQueue := [C]
          currentBath := some { id := B, start := now, durationMs := CleaningSystem.BATH_DURATION_MS } } := by
      unfold CleaningSystem.promoteBath
      rw [hcb, hq]
    rw [hpb]
    unfold CleaningSystem.completeBath
    dsimp only
    rw [if_pos hdur, if_neg hnotnow]
    dsimp only
    rw [hd]
    exact Or.inr (Or.inr (Or.inr (Or.inl ⟨rfl, ⟨now, rfl⟩, rfl⟩)))
  · have hpb : CleaningSystem.promoteBath now s = s := by
      unfold CleaningSystem.promoteBath
      rw [hcb]
    rw [hpb]
    unfold CleaningSystem.completeBath
    rw [hcb]
    dsimp only
    rw [if_pos hdur]
    by_cases hfin : now - st ≥ CleaningSystem.BATH_DURATION_MS
    · rw [if_pos hfin]
      dsimp only
      rw [hd]
      exact Or.inr (Or.inr (Or.inr (Or.inr (Or.inl ⟨rfl, rfl, hq⟩))))
    · rw [if_neg hfin]
      dsimp only
      rw [hd]
      exact Or.inr (Or.inr (Or.inr (Or.inl ⟨rfl, ⟨st, hcb⟩, hq⟩)))
  · have hpb : CleaningSystem.promoteBath now s =
        { s with
          bathQueue := []
          currentBath := some { id := C, start := now, durationMs := CleaningSystem.BATH_DURATION_MS } } := by
      unfold CleaningSystem.promoteBath
      rw [hcb, hq]
    rw [hpb]
    unfold CleaningSystem.completeBath
    dsimp only
    rw [if_pos hdur, if_neg hnotnow]
    dsimp only
    rw [hd]
    exact Or.inr (Or.inr (Or.inr (Or.inr (Or.inr (Or.inl ⟨rfl, ⟨now, rfl⟩, rfl⟩)))))
  · have hpb : CleaningSystem.promoteBath now s = s := by
      unfold CleaningSystem.promoteBath
      rw [hcb]
    rw [hpb]
    unfold CleaningSystem.completeBath
    rw [hcb]
    dsimp only
    rw [if_pos hdur]
    by_cases hfin : now - st ≥ CleaningSystem.BATH_DURATION_MS
    · rw [if_pos hfin]
      dsimp only
      rw [hd]
      exact Or.inr (Or.inr (Or.inr (Or.inr (Or.inr (Or.inr ⟨rfl, rfl, hq⟩)))))
    · rw [if_neg hfin]
      dsimp only
      rw [hd]
      exact Or.inr (Or.inr (Or.inr (Or.inr (Or.inr (Or.inl ⟨rfl, ⟨st, hcb⟩, hq⟩)))))
  · have hpb : CleaningSystem.promoteBath now s = s := by
      unfold CleaningSystem.promoteBath
      rw [hcb, hq]
    rw [hpb]
    unfold CleaningSystem.completeBath
    rw [hcb]
    dsimp only
    rw [hd]
    exact Or.inr (Or.inr (Or.inr (Or.inr (Or.inr (Or.inr ⟨rfl, hcb, hq⟩)))))

/-- Any schedule of bath ticks preserves the invariant, appending the run's
completion events. -/
theorem bathRun_inv (A B C : Nat) (times : List ℤ) (s : GState) (done : List Nat)
    (h : bathInv A B C s done) :
    bathInv A B C (bathRun times s).1 (done ++ (bathRun times s).2) := by
  induction times generalizing s done with
  | nil =>
    unfold bathRun
    simpa using h
  | cons t ts ih =>
    unfold bathRun
    dsimp only
    rw [← List.append_assoc]
    exact ih _ _ (bathInv_step A B C t s done h)

/-- A completion list allowed by the invariant is a prefix of `[A, B, C]`. -/
theorem bathInv_prefix (A B C : Nat) (s : GState) (done : List Nat)
    (h : bathInv A B C s done) : done <+: [A, B, C] := by
  rcases h with ⟨hd, -, -⟩ | ⟨hd, -, -⟩ | ⟨hd, -, -⟩ | ⟨hd, -, -⟩ |
    ⟨hd, -, -⟩ | ⟨hd, -, -⟩ | ⟨hd, -, -⟩ <;>
    rw [hd] <;>
    first
    | exact ⟨[A, B, C], rfl⟩
    | exact ⟨[B, C], rfl⟩
    | exact ⟨[C], rfl⟩
    | exact ⟨[], rfl⟩

/-- A bath tick reports a completion only for the occupant that was already
in the active slot when the tick began, and only once its full duration has
elapsed (an animal promoted this very tick cannot complete this tick). -/
theorem tickEv_completion_needs_elapsed (t : ℤ) (s : GState) (id : Nat)
    (h : (CleaningSystem.tickEv t s).2 = some id) :
    ∃ b : Slot, s.currentBath = some b ∧ b.id = id ∧
      t - b.start ≥ (if 0 < b.durationMs then b.durationMs else CleaningSystem.BATH_DURATION_MS) := by
  unfold CleaningSystem.tickEv at h
  cases hcb : s.currentBath with
  | some b =>
    have hpb : CleaningSystem.promoteBath t s = s := by
      unfold CleaningSystem.promoteBath
      rw [hcb]
    rw [hpb] at h
    unfold CleaningSystem.completeBath at h
    rw [hcb] at h
    dsimp only at h
    by_cases hfin : t - b.start ≥ (if 0 < b.durationMs then b.durationMs else CleaningSystem.BATH_DURATION_MS)
    · rw [if_pos hfin] at h
      refine ⟨b, rfl, ?_, hfin⟩
      dsimp only at h
      exact Option.some.inj h
    · rw [if_neg hfin] at h
      cases h
  | none =>
    cases hq : s.bathQueue with
    | nil =>
      have hpb : CleaningSystem.promoteBath t s = s := by
        unfold CleaningSystem.promoteBath
        rw [hcb, hq]
      rw [hpb] at h
      unfold CleaningSystem.completeBath at h
      rw [hcb] at h
      cases h
    | cons x rest =>
      have hpb : CleaningSystem.promoteBath t s =
          { s with
            bathQueue := rest
            currentBath := some { id := x, start := t, durationMs := CleaningSystem.BATH_DURATION_MS } } := by
        unfold CleaningSystem.promoteBath
        rw [hcb, hq]
      rw [hpb] at h
      unfold CleaningSystem.completeBath at h
      dsimp only at h
      rw [if_pos (by decide : (0 : ℤ) < CleaningSystem.BATH_DURATION_MS),
        if_neg (by rw [sub_self]; decide : ¬ (t - t ≥ CleaningSystem.BATH_DURATION_MS))] at h
      cases h

/-- A bath tick removes at most one id from the waiting queue. -/
theorem tickEv_at_most_one_promotion (t : ℤ) (s : GState) :
    s.bathQueue.length ≤ (CleaningSystem.tickEv t s).1.bathQueue.length + 1 := by
  unfold CleaningSystem.tickEv CleaningSystem.promoteBath CleaningSystem.completeBath
  (repeat' first | split | dsimp only) <;> simp_all <;> omega

/-- C6: FIFO bath completion.  From a state whose bath house holds exactly
the waiting queue `[A, B, C]` and an empty active slot, every schedule of
bath ticks produces its completion events as a prefix of `[A, B, C]` — the
baths complete in exactly the enqueue order; moreover a completion is only
ever reported for the animal already occupying the active slot, only after
its full configured duration has elapsed since its promotion, and each tick
promotes at most one waiting animal (so the successor starts only on a step
after the previous occupant's slot was cleared). -/
theorem c6_bath_fifo_order (A B C : Nat) (s : GState) (times : List ℤ)
    (hcb : s.currentBath = none) (hq : s.bathQueue = [A, B, C]) :
    ((bathRun times s).2 <+: [A, B, C]) ∧
    (∀ (t : ℤ) (s' : GState) (id : Nat), (CleaningSystem.tickEv t s').2 = some id →
      ∃ b : Slot, s'.currentBath = some b ∧ b.id = id ∧
        t - b.start ≥ (if 0 < b.durationMs then b.durationMs else CleaningSystem.BATH_DURATION_MS)) ∧
    (∀ (t : ℤ) (s' : GState),
      s'.bathQueue.length ≤ (CleaningSystem.tickEv t s').1.bathQueue.length + 1) := by
  refine ⟨?_, tickEv_completion_needs_elapsed, tickEv_at_most_one_promotion⟩
  have h0 : bathInv A B C s [] := Or.inl ⟨rfl, hcb, hq⟩
  have h1 := bathRun_inv A B C times s [] h0
  rw [List.nil_append] at h1
  exact bathInv_prefix A B C _ _ h1

/-- C6 (witness): running the schedule `c6Times` from `c6State` (animals
`1`, `2`, `3` enqueued into an empty bath house) completes the baths in
exactly the order `[1, 2, 3]`, which the theorem confirms is the unique
full-length prefix. -/
theorem c6_bath_fifo_order_witness :
    (bathRun c6Times c6State).2 = [1, 2, 3] ∧
    ((bathRun c6Times c6State).2 <+: [1, 2, 3]) := by
  have h := c6_bath_fifo_order 1 2 3 c6State c6Times rfl rfl
  exact ⟨by decide, h.1⟩

/-! ### C8: the care-stat range invariant -/

theorem clamp01_mem (x : ℚ) : 0 ≤ clamp x 0 100 ∧ clamp x 0 100 ≤ 100 := by
  unfold clamp
  exact ⟨le_max_left 0 _, max_le (by norm_num) (min_le_left _ _)⟩

theorem careStatsOK_updateHappiness (a : Animal) (h : careStatsOK a) :
    careStatsOK (HappinessSystem.updateSingleAnimalHappiness a) := by
  obtain ⟨-, -, h3, h4, -, -⟩ := h
  unfold HappinessSystem.updateSingleAnimalHappiness
  exact ⟨(clamp01_mem _).1, (clamp01_mem _).2, h3, h4,
    (clamp01_mem _).1, (clamp01_mem _).2⟩

set_option maxHeartbeats 1000000 in
theorem careStatsOK_sicknessStep (a : Animal) (h : careStatsOK a) :
    careStatsOK (DiseaseSystem.sicknessStep a) := by
  obtain ⟨h1, h2, h3, h4, h5, h6⟩ := h
  unfold DiseaseSystem.sicknessStep
  split
  · exact ⟨h1, h2, h3, h4, h5, h6⟩
  · dsimp only
    split <;> split <;>
      first
      | exact ⟨h1, h2, h3, h4, (clamp01_mem _).1, (clamp01_mem _).2⟩
      | exact ⟨h1, h2, h3, h4, h5, h6⟩

theorem careStatsOK_cureAnimal (a : Animal) (h : careStatsOK a) :
    careStatsOK (DiseaseSystem.cureAnimal a) := by
  obtain ⟨h1, h2, h3, h4, -, -⟩ := h
  exact ⟨h1, h2, h3, h4, (clamp01_mem _).1, (clamp01_mem _).2⟩

theorem careStatsOK_finishBath (a : Animal) (h : careStatsOK a) :
    careStatsOK (CleaningSystem.finishBath a) := by
  obtain ⟨h1, h2, -, -, -, -⟩ := h
  unfold CleaningSystem.finishBath
  refine ⟨h1, h2, (clamp01_mem _).1, ?_, (clamp01_mem _).1, (clamp01_mem _).2⟩
  unfold CleaningSystem.MAX_CLEANLINESS
  exact (clamp01_mem _).2

theorem careStatsOK_habitatEffect (a : Animal) (h : careStatsOK a) :
    careStatsOK (HabitatSystem.habitatEffect a) := by
  obtain ⟨h1, h2, h3, h4, h5, h6⟩ := h
  unfold HabitatSystem.habitatEffect
  split
  · exact ⟨h1, h2, h3, h4, (clamp01_mem _).1, (clamp01_mem _).2⟩
  · split
    · exact ⟨h1, h2, h3, h4, h5, h6⟩
    · split
      · exact ⟨h1, h2, h3, h4, (clamp01_mem _).1, (clamp01_mem _).2⟩
      · exact ⟨h1, h2, h3, h4, (clamp01_mem _).1, (clamp01_mem _).2⟩

theorem careStatsOK_createAnimal (pools : HatchingSystem.AnimalPoolsT)
    (choose : List HatchingSystem.AnimalTemplate → Option HatchingSystem.AnimalTemplate)
    (fid : Nat) (egg : Egg) (a : Animal)
    (h : HatchingSystem.createAnimalFromEgg pools choose fid egg = some a) :
    careStatsOK a := by
  unfold HatchingSystem.createAnimalFromEgg at h
  dsimp only at h
  split at h
  · cases h
  · split at h
    · cases h
    · cases h
      unfold careStatsOK
      norm_num

theorem allOK_map (f : Animal → Animal)
    (hf : ∀ a, careStatsOK a → careStatsOK (f a)) (l : List Animal)
    (h : ∀ a ∈ l, careStatsOK a) : ∀ a ∈ l.map f, careStatsOK a := by
  intro a ha
  rcases List.mem_map.mp ha with ⟨b, hb, rfl⟩
  exact hf b (h b hb)

theorem allOK_updateFirst (id : Nat) (f : Animal → Animal)
    (hf : ∀ a, careStatsOK a → careStatsOK (f a)) (l : List Animal)
    (h : ∀ a ∈ l, careStatsOK a) : ∀ a ∈ updateFirst id f l, careStatsOK a := by
  induction l with
  | nil => intro a ha; cases ha
  | cons x rest ih =>
    unfold updateFirst
    split
    · intro a ha
      rcases List.mem_cons.mp ha with rfl | ha
      · exact hf x (h x (List.mem_cons_self ..))
      · exact h a (List.mem_cons_of_mem _ ha)
    · intro a ha
      rcases List.mem_cons.mp ha with rfl | ha
      · exact h a (List.mem_cons_self ..)
      · exact ih (fun b hb => h b (List.mem_cons_of_mem _ hb)) a ha

theorem allOK_hatchLoop (pools : HatchingSystem.AnimalPoolsT)
    (choose : List HatchingSystem.AnimalTemplate → Option HatchingSystem.AnimalTemplate)
    (now : ℤ) (base : Nat) (l : List Egg) :
    ∀ a ∈ (HatchingSystem.hatchLoop pools choose now base l).2, careStatsOK a := by
  induction l with
  | nil => intro a ha; cases ha
  | cons x rest ih =>
    unfold HatchingSystem.hatchLoop
    split
    · dsimp only
      intro a ha
      rcases List.mem_append.mp ha with ha | ha
      · rcases hc : HatchingSystem.createAnimalFromEgg pools choose (base + rest.length) x with
          _ | b
        · rw [hc] at ha; cases ha
        · rw [hc] at ha
          rcases List.mem_cons.mp ha with rfl | ha
          · exact careStatsOK_createAnimal pools choose _ x a hc
          · cases ha
      · exact ih a ha
    · exact ih

theorem promoteBath_animals (now : ℤ) (s : GState) :
    (CleaningSystem.promoteBath now s).animals = s.animals := by
  unfold CleaningSystem.promoteBath
  (repeat' first | split | dsimp only) <;> rfl

theorem promoteClinic_animals (now : ℤ) (s : GState) :
    (DiseaseSystem.promoteClinic now s).animals = s.animals := by
  unfold DiseaseSystem.promoteClinic
  (repeat' first | split | dsimp only) <;> rfl

theorem buyEgg_animals (eggData : EconomySystem.EggDataT) (key : String)
    (fid : Nat) (now : ℤ) (s : GState) :
    (EconomySystem.buyEgg eggData key fid now s).1.animals = s.animals := by
  unfold EconomySystem.buyEgg
  (repeat' first | split | dsimp only) <;> rfl

theorem sendToBathById_animals (s : GState) (id : Nat) :
    (CleaningSystem.sendToBathById s id).1.animals = s.animals := by
  unfold CleaningSystem.sendToBathById
  (repeat' first | split | dsimp only) <;> rfl

theorem sendToClinicById_animals (s : GState) (id : Nat) :
    (DiseaseSystem.sendToClinicById s id).1.animals = s.animals := by
  unfold DiseaseSystem.sendToClinicById
  (repeat' first | split | dsimp only) <;> rfl

theorem clinicEnqueueRecorded_animals (s : GState) (id : Nat) :
    (DiseaseSystem.clinicEnqueueRecorded s id).1.animals = s.animals := by
  unfold DiseaseSystem.clinicEnqueueRecorded
  by_cases hr : (DiseaseSystem.sendToClinicById s id).2 = true
  · simp only [if_pos hr]
    exact sendToClinicById_animals s id
  · simp only [if_neg hr]
    exact sendToClinicById_animals s id

theorem cancelClinicById_animals (s : GState) (id : Nat) :
    (DiseaseSystem.cancelClinicById s id).1.animals = s.animals := by
  unfold DiseaseSystem.cancelClinicById
  (repeat' first | split | dsimp only) <;> rfl

theorem loseTick_animals (eggData : EconomySystem.EggDataT) (s : GState) :
    (LoseSystem.tick eggData s).animals = s.animals := by
  unfold LoseSystem.tick
  (repeat' first | split | dsimp only) <;> rfl

theorem evRevert_animals (tid : EvId) (s : GState) :
    (EventsSystem.evRevert tid s).animals = s.animals := by
  cases tid <;> rfl

theorem revert_foldl_animals (l : List EventRecord) (s : GState) :
    (l.foldl (fun acc ev => EventsSystem.evRevert ev.tid acc) s).animals = s.animals := by
  induction l generalizing s with
  | nil => rfl
  | cons ev rest ih =>
    rw [List.foldl_cons]
    exact (ih _).trans (evRevert_animals ev.tid s)

theorem allOK_hatch_tick (pools : HatchingSystem.AnimalPoolsT)
    (choose : List HatchingSystem.AnimalTemplate → Option HatchingSystem.AnimalTemplate)
    (now : ℤ) (base : Nat) (s : GState)
    (h : ∀ a ∈ s.animals, careStatsOK a) :
    ∀ a ∈ (HatchingSystem.tick pools choose now base s).animals, careStatsOK a := by
  unfold HatchingSystem.tick
  intro a ha
  rcases List.mem_append.mp ha with ha | ha
  · exact h a ha
  · exact allOK_hatchLoop pools choose now base s.eggs a ha

theorem allOK_completeBath (now : ℤ) (s : GState)
    (h : ∀ a ∈ s.animals, careStatsOK a) :
    ∀ a ∈ (CleaningSystem.completeBath now s).1.animals, careStatsOK a := by
  unfold CleaningSystem.completeBath
  (repeat' first | split | dsimp only)
  all_goals
    first
    | exact h
    | exact allOK_updateFirst _ _ careStatsOK_finishBath _ h

theorem allOK_cleaning_tick (now : ℤ) (s : GState)
    (h : ∀ a ∈ s.animals, careStatsOK a) :
    ∀ a ∈ (CleaningSystem.tick now s).animals, careStatsOK a := by
  unfold CleaningSystem.tick CleaningSystem.tickEv
  apply allOK_completeBath
  rw [promoteBath_animals]
  exact h

theorem allOK_completeClinic (now : ℤ) (s : GState)
    (h : ∀ a ∈ s.animals, careStatsOK a) :
    ∀ a ∈ (DiseaseSystem.completeClinic now s).animals, careStatsOK a := by
  unfold DiseaseSystem.completeClinic
  (repeat' first | split | dsimp only)
  all_goals
    first
    | exact h
    | exact allOK_updateFirst _ _ careStatsOK_cureAnimal _ h

theorem allOK_disease_tick (now : ℤ) (s : GState)
    (h : ∀ a ∈ s.animals, careStatsOK a) :
    ∀ a ∈ (DiseaseSystem.tick now s).animals, careStatsOK a := by
  unfold DiseaseSystem.tick DiseaseSystem.processClinic
  apply allOK_completeClinic
  rw [promoteClinic_animals]
  unfold DiseaseSystem.checkAndUpdateSickness
  exact allOK_map _ careStatsOK_sicknessStep _ h

theorem allOK_habitat_tick (s : GState)
    (h : ∀ a ∈ s.animals, careStatsOK a) :
    ∀ a ∈ (HabitatSystem.tick s).animals, careStatsOK a := by
  unfold HabitatSystem.tick
  exact allOK_map _ careStatsOK_habitatEffect _ h

theorem allOK_happiness_tick (s : GState)
    (h : ∀ a ∈ s.animals, careStatsOK a) :
    ∀ a ∈ (HappinessSystem.tick s).animals, careStatsOK a := by
  unfold HappinessSystem.tick
  exact allOK_map _ careStatsOK_updateHappiness _ h

theorem allOK_evEffect (draw : ℚ) (tid : EvId) (s : GState)
    (h : ∀ a ∈ s.animals, careStatsOK a) :
    ∀ a ∈ (EventsSystem.evEffect draw tid s).animals, careStatsOK a := by
  cases tid <;> unfold EventsSystem.evEffect <;> dsimp only
  · exact h
  · exact h
  · refine allOK_map _ ?_ _ h
    intro a ha
    obtain ⟨h1, h2, h3, h4, -, -⟩ := ha
    exact ⟨h1, h2, h3, h4, (clamp01_mem _).1, (clamp01_mem _).2⟩
  · refine allOK_map _ ?_ _ h
    intro a ha
    obtain ⟨h1, h2, -, -, h5, h6⟩ := ha
    exact ⟨h1, h2, (clamp01_mem _).1, (clamp01_mem _).2, h5, h6⟩
  · exact h

theorem allOK_events_tick (now : ℤ) (roll : ℚ) (eIdx : Nat) (draw : ℚ) (s : GState)
    (h : ∀ a ∈ s.animals, careStatsOK a) :
    ∀ a ∈ (EventsSystem.tick now roll eIdx draw s).animals, careStatsOK a := by
  unfold EventsSystem.tick
  have hpr : ∀ a ∈ (EventsSystem.processActiveEvents now s).animals, careStatsOK a := by
    unfold EventsSystem.processActiveEvents
    dsimp only
    rw [revert_foldl_animals]
    exact h
  unfold EventsSystem.triggerRandomEventIfNeeded
  split
  · exact hpr
  · split
    · exact hpr
    · dsimp only
      exact allOK_evEffect draw _ _ hpr

theorem allOK_economy_tick (s : GState)
    (h : ∀ a ∈ s.animals, careStatsOK a) :
    ∀ a ∈ (EconomySystem.tick s).animals, careStatsOK a := h

theorem allOK_gameTick (pools : HatchingSystem.AnimalPoolsT) (r : TickRand)
    (now : ℤ) (s : GState) (h : ∀ a ∈ s.animals, careStatsOK a) :
    ∀ a ∈ (gameTick pools r now s).animals, careStatsOK a := by
  unfold gameTick
  exact allOK_economy_tick _ (allOK_events_tick _ _ _ _ _
    (allOK_happiness_tick _ (allOK_habitat_tick _ (allOK_disease_tick _ _
      (allOK_cleaning_tick _ _ (allOK_hatch_tick _ _ _ _ _ h))))))

theorem allOK_feed (s : GState) (id : Nat)
    (h : ∀ a ∈ s.animals, careStatsOK a) :
    ∀ a ∈ (FeedingSystem.feedAnimalById s id).1.animals, careStatsOK a := by
  unfold FeedingSystem.feedAnimalById
  (repeat' first | split | dsimp only)
  all_goals
    first
    | exact h
    | · refine allOK_updateFirst _ _ ?_ _ h
        intro a ha
        obtain ⟨-, -, h3, h4, -, -⟩ := ha
        refine ⟨(clamp01_mem _).1, ?_, h3, h4, (clamp01_mem _).1, (clamp01_mem _).2⟩
        unfold FeedingSystem.MAX_HUNGER
        exact (clamp01_mem _).2

theorem allOK_sell (s : GState) (id : Nat)
    (h : ∀ a ∈ s.animals, careStatsOK a) :
    ∀ a ∈ (EconomySystem.sellAnimalById s id).1.animals, careStatsOK a := by
  unfold EconomySystem.sellAnimalById
  (repeat' first | split | dsimp only)
  all_goals
    first
    | exact h
    | · intro a ha
        exact h a ((List.eraseP_sublist _).subset ha)

theorem allOK_assignHabitat (s : GState) (id : Nat) (key : String)
    (h : ∀ a ∈ s.animals, careStatsOK a) :
    ∀ a ∈ (HabitatSystem.assignToHabitat s id key).1.animals, careStatsOK a := by
  unfold HabitatSystem.assignToHabitat
  (repeat' first | split | dsimp only)
  all_goals
    first
    | exact h
    | · refine allOK_updateFirst _ _ ?_ _ h
        intro a ha
        exact ha

theorem allOK_doPrestige (now : ℤ) (s : GState)
    (h : ∀ a ∈ s.animals, careStatsOK a) :
    ∀ a ∈ (PrestigeSystem.doPrestige now s).1.animals, careStatsOK a := by
  unfold PrestigeSystem.doPrestige PrestigeSystem.resetZooForNewRun
  split
  · intro a ha
    cases ha
  · exact h

theorem allOK_restart (now : ℤ) (s : GState) :
    ∀ a ∈ (LoseSystem.restartGame now s).animals, careStatsOK a := by
  intro a ha
  cases ha

/-- C8: in every state reachable from the fresh game state by any
interleaving of per-second pipeline steps and user-initiated operations,
every animal's hunger, cleanliness and happiness lie in `[0, 100]`. -/
theorem c8_care_stats_clamped (pools : HatchingSystem.AnimalPoolsT)
    (eggData : EconomySystem.EggDataT) (s : GState)
    (h : Reachable pools eggData s) : ∀ a ∈ s.animals, careStatsOK a := by
  induction h with
  | init bootTime => intro a ha; cases ha
  | step r now _ ih => exact allOK_gameTick _ r now _ ih
  | buyEgg typeKey freshId now _ ih =>
    rw [buyEgg_animals]
    exact ih
  | feed id _ ih => exact allOK_feed _ id ih
  | clean id _ ih =>
    rw [sendToBathById_animals]
    exact ih
  | sell id _ ih => exact allOK_sell _ id ih
  | clinicSend id _ ih =>
    rw [clinicEnqueueRecorded_animals]
    exact ih
  | clinicCancel id _ ih =>
    rw [cancelClinicById_animals]
    exact ih
  | habitatAssign id key _ ih => exact allOK_assignHabitat _ id key ih
  | prestige now _ ih => exact allOK_doPrestige now _ ih
  | restart now _ _ => exact allOK_restart now _
  | loseCheck _ ih =>
    rw [loseTick_animals]
    exact ih

/-- C8 (witness): a concrete reachable state with one animal — buy a common
egg at boot, then run one pipeline step past its hatch time — satisfies the
invariant, and indeed holds exactly one animal. -/
theorem c8_care_stats_clamped_witness :
    (∀ a ∈ (gameTick constPools quietRand 9000
        (EconomySystem.buyEgg testEggData "common" 42 0 (initialGameState 0)).1).animals,
      careStatsOK a) ∧
    (gameTick constPools quietRand 9000
        (EconomySystem.buyEgg testEggData "common" 42 0 (initialGameState 0)).1).animals.length
      = 1 :=
  ⟨c8_care_stats_clamped constPools testEggData _
      (Reachable.step quietRand 9000
        (Reachable.buyEgg "common" 42 0 (Reachable.init 0))),
    by decide⟩

end Zoo
